import Mathlib

/-!
The FDK AAC decoder wrapper, libavcodec/libfdk-aacdec.c.

A shallow embedding of the three codec callbacks of the wrapper
(aac_decode_init, aac_decode_frame, aac_decode_close) and of
aac_get_stream_info.

The external decoder library (aacDecoder_Open, aacDecoder_ConfigRaw,
aacDecoder_Fill, aacDecoder_DecodeFrame, aacDecoder_GetStreamInfo,
aacDecoder_Close), the host callback get_buffer and the allocator av_malloc are
black boxes of the wrapper.  Each call of a callback receives an environment
record that fixes what these black boxes answer during that call; the callbacks
are functions of the context, the packet and that record.  Every call made to a
black box is appended to a trace, so that the order of calls and the lifetime of
the scratch allocation and of the decoder handle can be stated.
-/

namespace FdkAacDec

/-! ## Data model -/

/-- One byte of sample memory. -/
abbrev Byte := Nat

/-- The status codes of the external decoder that the wrapper tells apart:
AAC_DEC_OK, AAC_DEC_NOT_ENOUGH_BITS, and every other code. -/
inductive AAC_DECODER_ERROR
  | AAC_DEC_OK
  | AAC_DEC_NOT_ENOUGH_BITS
  | other (code : Nat)
  deriving DecidableEq, Repr

/-- The two transport types the wrapper passes to aacDecoder_Open. -/
inductive TRANSPORT_TYPE
  | TT_MP4_RAW
  | TT_MP4_ADTS
  deriving DecidableEq, Repr

/-- Sample formats of the host framework (only S16 is ever written). -/
inductive AVSampleFormat
  | AV_SAMPLE_FMT_NONE
  | AV_SAMPLE_FMT_U8
  | AV_SAMPLE_FMT_S16
  | AV_SAMPLE_FMT_S32
  | AV_SAMPLE_FMT_FLT
  | AV_SAMPLE_FMT_DBL
  deriving DecidableEq, Repr

/-- The fields of CStreamInfo read by aac_get_stream_info. -/
structure CStreamInfo where
  sampleRate : Int
  frameSize : Int
  numChannels : Int
  deriving DecidableEq, Repr

/-- The fields of AVFrame used by the wrapper: nb_samples and the memory behind
data[0] (the empty list before any buffer was obtained). -/
structure AVFrame where
  nb_samples : Int
  data0 : List Byte
  deriving DecidableEq, Repr

/-- The result of avcodec_get_frame_defaults. -/
def avcodec_get_frame_defaults : AVFrame := { nb_samples := 0, data0 := [] }

/-- The private context: struct AACContext (the AVClass pointer is not modelled).
A handle is none when it is NULL. -/
structure AACContext where
  frame : AVFrame
  handle : Option Nat
  initialized : Int
  deriving DecidableEq, Repr

/-- The fields of AVCodecContext read or written by the wrapper.
coded_frame_set records that coded_frame points at the private frame. -/
structure AVCodecContext where
  channels : Int
  sample_rate : Int
  frame_size : Int
  sample_fmt : AVSampleFormat
  extradata_size : Int
  coded_frame_set : Bool
  priv_data : AACContext
  deriving DecidableEq, Repr

/-- The field of AVPacket the control flow depends on. -/
structure AVPacket where
  size : Int
  deriving DecidableEq, Repr

/-- The error constants of libavutil/error.h used by the wrapper.  Their header
is not part of the sources at hand, so they are a parameter.  All of them are
negative: the wrapper itself tests a callee for failure with a comparison
against zero (lines 113, 138, 148). -/
structure ErrorCodes where
  AVERROR_EINVAL : Int
  AVERROR_ENOMEM : Int
  AVERROR_INVALIDDATA : Int
  einval_neg : AVERROR_EINVAL < 0
  enomem_neg : AVERROR_ENOMEM < 0
  invaliddata_neg : AVERROR_INVALIDDATA < 0

/-- The values on a POSIX host: AVERROR(EINVAL) = -22, AVERROR(ENOMEM) = -12,
AVERROR_INVALIDDATA = -0x3ebbb1b7. -/
def posixErrorCodes : ErrorCodes where
  AVERROR_EINVAL := -22
  AVERROR_ENOMEM := -12
  AVERROR_INVALIDDATA := -1052488119
  einval_neg := by decide
  enomem_neg := by decide
  invaliddata_neg := by decide

/-! ## Machine integers and memory -/

/-- Conversion of an integer to a 32-bit int (two-complement wrap-around). -/
def wrapInt32 (x : Int) : Int := (x + 2147483648) % 4294967296 - 2147483648

/-- Conversion of an int to UINT (32-bit unsigned). -/
def toUINT (x : Int) : Nat := (x % 4294967296).toNat

/-- Conversion of an int to size_t (64-bit). -/
def toSizeT (x : Int) : Nat := (x % 18446744073709551616).toNat

/-- The decoder writes the samples d into a buffer for which it was told the
capacity cap (in bytes): the leading bytes of the buffer are overwritten.  The
decoder never writes past the capacity it was given, nor past the buffer. -/
def pcm_write (buf : List Byte) (cap : Int) (d : List Byte) : List Byte :=
  let w := d.take (min cap.toNat buf.length)
  w ++ buf.drop w.length

/-- The call memcpy(dst, src, n) on two disjoint buffers: the first n bytes of
dst become the first n bytes of src.  A copy that would leave either buffer is
undefined in C; here it is clamped to the buffers. -/
def memcpy (dst src : List Byte) (n : Nat) : List Byte :=
  let k := min n (min src.length dst.length)
  src.take k ++ dst.drop k

/-! ## Calls to the black boxes -/

/-- One call made by the wrapper to the decoder library, the host or the
allocator, with the arguments that matter and the answer received. -/
inductive Event
  | aacDecoder_Open (tt : TRANSPORT_TYPE) (nrOfLayers : Nat) (h : Option Nat)
  | aacDecoder_ConfigRaw (h : Option Nat) (length : Int) (err : AAC_DECODER_ERROR)
  | aacDecoder_Close (h : Nat)
  | aacDecoder_Fill (bufferSize : Int) (validIn : Nat) (err : AAC_DECODER_ERROR)
      (validOut : Nat)
  | get_buffer (channels nb_samples : Int) (ret : Int)
  | av_malloc (size : Int) (ok : Bool)
  | aacDecoder_DecodeFrame (buf_size : Int) (err : AAC_DECODER_ERROR)
  | aacDecoder_GetStreamInfo (info : Option CStreamInfo)
  | memcpy (n : Int)
  | av_free (nonnull : Bool)
  deriving DecidableEq, Repr

/-- What the black boxes answer during one call of aac_decode_frame.
fill_valid is the value aacDecoder_Fill leaves in valid; get_buffer maps the
request (channels, nb_samples) to the returned status and the memory handed
out; av_malloc is the scratch memory, or none for NULL; decode maps the
capacity passed to aacDecoder_DecodeFrame to its status and the samples it
writes; stream_info is the answer of aacDecoder_GetStreamInfo. -/
structure DecodeEnv where
  fill_err : AAC_DECODER_ERROR
  fill_valid : Nat
  get_buffer : Int → Int → Int × List Byte
  av_malloc : Option (List Byte)
  decode : Int → AAC_DECODER_ERROR × List Byte
  stream_info : Option CStreamInfo

/-- What the decoder library answers during one call of aac_decode_init. -/
structure InitEnv where
  open_handle : TRANSPORT_TYPE → Option Nat
  config_raw : AAC_DECODER_ERROR

/-- The outcome of aac_decode_init and aac_decode_close. -/
structure InitResult where
  avctx : AVCodecContext
  ret : Int
  trace : List Event

/-- The outcome of aac_decode_frame: the context afterwards, the returned int,
the value stored through got_frame_ptr and the frame stored through data (none
when nothing was stored), and the calls made. -/
structure FrameResult where
  avctx : AVCodecContext
  ret : Int
  got_frame : Option Int
  data : Option AVFrame
  trace : List Event

/-! ## The wrapper -/

/-- Lines 43-60. -/
def aac_get_stream_info (ec : ErrorCodes) (avctx : AVCodecContext)
    (info : Option CStreamInfo) : Int × AVCodecContext :=
  match info with
  | none => (ec.AVERROR_EINVAL, avctx)
  | some info =>
    if info.sampleRate ≤ 0 then (ec.AVERROR_EINVAL, avctx)
    else (0, { avctx with channels := info.numChannels,
                          sample_rate := info.sampleRate,
                          frame_size := info.frameSize })

/-- Lines 62-68. -/
def aac_decode_close (avctx : AVCodecContext) : InitResult :=
  match avctx.priv_data.handle with
  | some h => { avctx := avctx, ret := 0, trace := [Event.aacDecoder_Close h] }
  | none => { avctx := avctx, ret := 0, trace := [] }

/-- Lines 70-93. -/
def aac_decode_init (ec : ErrorCodes) (avctx : AVCodecContext) (env : InitEnv) :
    InitResult :=
  let ret := ec.AVERROR_EINVAL
  let tt := if avctx.extradata_size ≠ 0 then TRANSPORT_TYPE.TT_MP4_RAW
            else TRANSPORT_TYPE.TT_MP4_ADTS
  let h := env.open_handle tt
  let avctx1 := { avctx with priv_data := { avctx.priv_data with handle := h } }
  let t1 := [Event.aacDecoder_Open tt 1 h]
  if avctx.extradata_size ≠ 0 then
    let t2 := t1 ++ [Event.aacDecoder_ConfigRaw h avctx.extradata_size env.config_raw]
    if env.config_raw ≠ AAC_DECODER_ERROR.AAC_DEC_OK then
      { avctx := avctx1, ret := ret, trace := t2 }
    else
      { avctx := { avctx1 with
                     priv_data := { avctx1.priv_data with frame := avcodec_get_frame_defaults },
                     coded_frame_set := true,
                     sample_fmt := AVSampleFormat.AV_SAMPLE_FMT_S16 },
        ret := 0, trace := t2 }
  else
    { avctx := { avctx1 with
                   priv_data := { avctx1.priv_data with frame := avcodec_get_frame_defaults },
                   coded_frame_set := true,
                   sample_fmt := AVSampleFormat.AV_SAMPLE_FMT_S16 },
      ret := 0, trace := t1 }

/-- The event of av_free(tmpptr): freeing NULL does nothing. -/
def av_free_event (tmpptr : Option (List Byte)) : Event :=
  Event.av_free tmpptr.isSome

/-- Lines 146-158 of aac_decode_frame: the copy out of the scratch buffer and
the hand-over of the frame.  tmpptr is the scratch memory (none for NULL),
valid the count left by aacDecoder_Fill and t the calls made so far. -/
def aac_decode_frame_output (avctx : AVCodecContext) (avpkt : AVPacket)
    (env : DecodeEnv) (valid : Nat) (tmpptr : Option (List Byte))
    (t : List Event) : FrameResult :=
  match tmpptr with
  | some tmp =>
    let avctx := { avctx with
      priv_data := { avctx.priv_data with
        frame := { avctx.priv_data.frame with nb_samples := avctx.frame_size } } }
    let gb := env.get_buffer avctx.channels avctx.priv_data.frame.nb_samples
    let t := t ++ [Event.get_buffer avctx.channels avctx.priv_data.frame.nb_samples gb.1]
    if gb.1 < 0 then
      { avctx := avctx, ret := gb.1, got_frame := none, data := none, trace := t }
    else
      let n := wrapInt32 (2 * avctx.channels * avctx.frame_size)
      let avctx := { avctx with
        priv_data := { avctx.priv_data with
          frame := { avctx.priv_data.frame with data0 := memcpy gb.2 tmp (toSizeT n) } } }
      { avctx := avctx, ret := wrapInt32 (avpkt.size - valid), got_frame := some 1,
        data := some avctx.priv_data.frame,
        trace := t ++ [Event.memcpy n, Event.av_free true] }
  | none =>
    { avctx := avctx, ret := wrapInt32 (avpkt.size - valid), got_frame := some 1,
      data := some avctx.priv_data.frame,
      trace := t ++ [Event.av_free false] }

/-- Lines 126-144 of aac_decode_frame, followed by aac_decode_frame_output: the
call of aacDecoder_DecodeFrame and the resolution of the stream parameters.
On entry buf_size is set, tmpptr is the scratch memory (none for NULL), and buf
is tmpptr when that is set and frame.data[0] otherwise; valid is the count left
by aacDecoder_Fill and t the calls made so far. -/
def aac_decode_frame_decode (ec : ErrorCodes) (avctx : AVCodecContext) (avpkt : AVPacket)
    (env : DecodeEnv) (valid : Nat) (buf_size : Int) (tmpptr : Option (List Byte))
    (t : List Event) : FrameResult :=
  let s := avctx.priv_data
  let err := (env.decode buf_size).1
  let pcm := (env.decode buf_size).2
  -- the decoder writes into buf
  let tmpptr := tmpptr.map (fun m => pcm_write m buf_size pcm)
  let s := match tmpptr with
    | some _ => s
    | none => { s with frame := { s.frame with data0 := pcm_write s.frame.data0 buf_size pcm } }
  let avctx := { avctx with priv_data := s }
  let t := t ++ [Event.aacDecoder_DecodeFrame buf_size err]
  if err = AAC_DECODER_ERROR.AAC_DEC_NOT_ENOUGH_BITS then
    { avctx := avctx, ret := wrapInt32 (avpkt.size - valid), got_frame := none, data := none,
      trace := t ++ [av_free_event tmpptr] }
  else if err ≠ AAC_DECODER_ERROR.AAC_DEC_OK then
    { avctx := avctx, ret := ec.AVERROR_INVALIDDATA, got_frame := none, data := none,
      trace := t ++ [av_free_event tmpptr] }
  else if s.initialized = 0 then
    let r := aac_get_stream_info ec avctx env.stream_info
    let t := t ++ [Event.aacDecoder_GetStreamInfo env.stream_info]
    if r.1 < 0 then
      { avctx := r.2, ret := r.1, got_frame := none, data := none,
        trace := t ++ [av_free_event tmpptr] }
    else
      let avctx := r.2
      let avctx := { avctx with
        priv_data := { avctx.priv_data with
          initialized := 1,
          frame := { avctx.priv_data.frame with nb_samples := avctx.frame_size } } }
      aac_decode_frame_output avctx avpkt env valid tmpptr t
  else
    aac_decode_frame_output avctx avpkt env valid tmpptr t

/-- Lines 95-159. -/
def aac_decode_frame (ec : ErrorCodes) (avctx : AVCodecContext) (avpkt : AVPacket)
    (env : DecodeEnv) : FrameResult :=
  let s := avctx.priv_data
  -- UINT valid = avpkt->size
  let valid0 := toUINT avpkt.size
  let t := [Event.aacDecoder_Fill avpkt.size valid0 env.fill_err env.fill_valid]
  if env.fill_err ≠ AAC_DECODER_ERROR.AAC_DEC_OK then
    { avctx := avctx, ret := ec.AVERROR_INVALIDDATA, got_frame := none, data := none,
      trace := t }
  else
    let valid := env.fill_valid
    if avctx.channels ≠ 0 then
      let nb_samples := if s.initialized = 0 then 2048 else avctx.frame_size
      let avctx := { avctx with
        priv_data := { s with frame := { s.frame with nb_samples := nb_samples } } }
      let gb := env.get_buffer avctx.channels nb_samples
      let t := t ++ [Event.get_buffer avctx.channels nb_samples gb.1]
      if gb.1 < 0 then
        { avctx := avctx, ret := gb.1, got_frame := none, data := none, trace := t }
      else
        let avctx := { avctx with
          priv_data := { avctx.priv_data with
            frame := { avctx.priv_data.frame with data0 := gb.2 } } }
        let buf_size := wrapInt32 (2 * avctx.channels * nb_samples)
        aac_decode_frame_decode ec avctx avpkt env valid buf_size none t
    else
      let buf_size : Int := 50 * 1024
      match env.av_malloc with
      | none =>
        { avctx := avctx, ret := ec.AVERROR_ENOMEM, got_frame := none, data := none,
          trace := t ++ [Event.av_malloc buf_size false] }
      | some m =>
        aac_decode_frame_decode ec avctx avpkt env valid buf_size (some m)
          (t ++ [Event.av_malloc buf_size true])

/-! ## Sessions and resource accounting -/

/-- The context after feeding a list of packets, each with the answers of the
black boxes during its call, one aac_decode_frame call after the other. -/
def session_state (ec : ErrorCodes) (avctx : AVCodecContext) :
    List (AVPacket × DecodeEnv) → AVCodecContext
  | [] => avctx
  | (p, e) :: rest => session_state ec (aac_decode_frame ec avctx p e).avctx rest

/-- The outcomes of the calls of a session, in order. -/
def session_results (ec : ErrorCodes) (avctx : AVCodecContext) :
    List (AVPacket × DecodeEnv) → List FrameResult
  | [] => []
  | (p, e) :: rest =>
    aac_decode_frame ec avctx p e ::
      session_results ec (aac_decode_frame ec avctx p e).avctx rest

/-- Whether the answer of aacDecoder_GetStreamInfo lets aac_get_stream_info
succeed: info is present and its sample rate is positive. -/
def resolvable (info : Option CStreamInfo) : Bool :=
  match info with
  | none => false
  | some i => decide (0 < i.sampleRate)

/-- Replays the allocator calls of a trace, starting with the scratch buffer in
the state live (true: allocated and not yet freed).  The result is none when a
buffer is freed that is not live or a second one is allocated while the first
is live; otherwise it is the state at the end of the trace. -/
def scratch_replay : List Event → Bool → Option Bool
  | [], live => some live
  | Event.av_malloc _ true :: rest, live => if live then none else scratch_replay rest true
  | Event.av_free true :: rest, live => if live then scratch_replay rest false else none
  | _ :: rest, live => scratch_replay rest live

/-- The number of successful scratch allocations in a trace. -/
def scratch_allocs (t : List Event) : Nat :=
  (t.filter (fun e => match e with | Event.av_malloc _ true => true | _ => false)).length

/-- The number of av_free calls on a non-NULL pointer in a trace. -/
def scratch_frees (t : List Event) : Nat :=
  (t.filter (fun e => e = Event.av_free true)).length

/-- The get_buffer requests of a trace, as (channels, nb_samples, ret). -/
def get_buffer_requests : List Event → List (Int × Int × Int)
  | [] => []
  | Event.get_buffer c n r :: rest => (c, n, r) :: get_buffer_requests rest
  | _ :: rest => get_buffer_requests rest

/-- The handles closed in a trace. -/
def closed_handles : List Event → List Nat
  | [] => []
  | Event.aacDecoder_Close h :: rest => h :: closed_handles rest
  | _ :: rest => closed_handles rest

/-! ## The states along the paths of aac_decode_frame -/

/-- The samples requested per channel on the direct path (line 112). -/
def direct_nb_samples (avctx : AVCodecContext) : Int :=
  if avctx.priv_data.initialized = 0 then 2048 else avctx.frame_size

/-- The capacity passed to the decoder on the direct path (line 118). -/
def direct_buf_size (avctx : AVCodecContext) : Int :=
  wrapInt32 (2 * avctx.channels * direct_nb_samples avctx)

/-- The context with which the direct path (channels known) calls the decoder:
nb_samples is set and frame.data[0] is the memory get_buffer handed out. -/
def direct_ctx (avctx : AVCodecContext) (env : DecodeEnv) : AVCodecContext :=
  { avctx with
    priv_data := { avctx.priv_data with
      frame :=
        { nb_samples := if avctx.priv_data.initialized = 0 then 2048 else avctx.frame_size,
          data0 := (env.get_buffer avctx.channels
            (if avctx.priv_data.initialized = 0 then 2048 else avctx.frame_size)).2 } } }

/-- The scratch memory after the decoder wrote into it (NULL stays NULL). -/
def written_tmp (env : DecodeEnv) (buf_size : Int) (tmpptr : Option (List Byte)) :
    Option (List Byte) :=
  tmpptr.map (fun m => pcm_write m buf_size (env.decode buf_size).2)

/-- The context after the decoder wrote into buf: frame.data[0] holds the
samples when no scratch buffer is in use. -/
def written_ctx (avctx : AVCodecContext) (env : DecodeEnv) (buf_size : Int)
    (tmpptr : Option (List Byte)) : AVCodecContext :=
  { avctx with
    priv_data :=
      match written_tmp env buf_size tmpptr with
      | some _ => avctx.priv_data
      | none =>
        { avctx.priv_data with
          frame := { avctx.priv_data.frame with
            data0 := pcm_write avctx.priv_data.frame.data0 buf_size (env.decode buf_size).2 } } }

/-- The context of the direct path after the decoder wrote into frame.data[0]. -/
def direct_written (avctx : AVCodecContext) (env : DecodeEnv) : AVCodecContext :=
  written_ctx (direct_ctx avctx env) env (direct_buf_size avctx) none

/-- The scratch memory after the decoder wrote into it. -/
def scratch_written (env : DecodeEnv) (m : List Byte) : List Byte :=
  pcm_write m 51200 (env.decode 51200).2

/-- The context after a successful aac_get_stream_info and lines 142-143. -/
def resolved_ctx (avctx : AVCodecContext) (info : CStreamInfo) : AVCodecContext :=
  { avctx with
    channels := info.numChannels, sample_rate := info.sampleRate, frame_size := info.frameSize,
    priv_data := { avctx.priv_data with
      initialized := 1,
      frame := { avctx.priv_data.frame with nb_samples := info.frameSize } } }

/-- The context with which the scratch path asks for the output buffer
(line 147). -/
def scratch_request_ctx (avctx : AVCodecContext) : AVCodecContext :=
  { avctx with
    priv_data := { avctx.priv_data with
      frame := { avctx.priv_data.frame with nb_samples := avctx.frame_size } } }

/-- The context after the scratch path copied the samples into the output
buffer (line 152). -/
def scratch_out_ctx (avctx : AVCodecContext) (env : DecodeEnv) (tmp : List Byte) :
    AVCodecContext :=
  { avctx with
    priv_data := { avctx.priv_data with
      frame :=
        { nb_samples := avctx.frame_size,
          data0 := memcpy (env.get_buffer avctx.channels avctx.frame_size).2 tmp
            (toSizeT (wrapInt32 (2 * avctx.channels * avctx.frame_size))) } } }

/-! ## Concrete inputs used to evaluate the wrapper -/

/-- A context as the host hands it to init: nothing resolved, no handle. -/
def ctx_fresh (channels extradata_size : Int) : AVCodecContext :=
  { channels := channels, sample_rate := 0, frame_size := 0,
    sample_fmt := AVSampleFormat.AV_SAMPLE_FMT_NONE,
    extradata_size := extradata_size, coded_frame_set := false,
    priv_data := { frame := avcodec_get_frame_defaults, handle := none, initialized := 0 } }

/-- A context of a resolved session. -/
def ctx_resolved (channels sample_rate frame_size : Int) : AVCodecContext :=
  { channels := channels, sample_rate := sample_rate, frame_size := frame_size,
    sample_fmt := AVSampleFormat.AV_SAMPLE_FMT_S16,
    extradata_size := 0, coded_frame_set := true,
    priv_data := { frame := avcodec_get_frame_defaults, handle := some 7, initialized := 1 } }

/-- A decoder library that opens handle 7 and rejects the configuration. -/
def init_env_reject : InitEnv :=
  { open_handle := fun _ => some 7, config_raw := AAC_DECODER_ERROR.other 5 }

/-- A decoder environment for the concrete evaluations: fill accepts and leaves
valid bytes, get_buffer answers gb_ret with zeroed memory of the size the
wrapper computes for the request (line 118), av_malloc succeeds with 51200
zeroed bytes, decode answers err and writes pcm. -/
def env_of (valid : Nat) (gb_ret : Int) (err : AAC_DECODER_ERROR) (pcm : List Byte)
    (info : Option CStreamInfo) : DecodeEnv :=
  { fill_err := AAC_DECODER_ERROR.AAC_DEC_OK, fill_valid := valid,
    get_buffer := fun c n => (gb_ret, List.replicate (wrapInt32 (2 * c * n)).toNat 0),
    av_malloc := some (List.replicate 51200 0),
    decode := fun _ => (err, pcm),
    stream_info := info }

/-- The packet decodes to the four sample bytes 1, 2, 3, 4; the stream has one
channel and frame size 2; 3 bytes of the packet stay unconsumed. -/
def env_decoded : DecodeEnv :=
  env_of 3 0 AAC_DECODER_ERROR.AAC_DEC_OK [1, 2, 3, 4] (some ⟨44100, 2, 1⟩)

/-- Fill and decode succeed while no stream information is available. -/
def env_no_info : DecodeEnv :=
  env_of 3 0 AAC_DECODER_ERROR.AAC_DEC_OK [] none

/-- The decoder wants more bits. -/
def env_more_bits : DecodeEnv :=
  env_of 3 0 AAC_DECODER_ERROR.AAC_DEC_NOT_ENOUGH_BITS [] none

/-- As env_decoded, but every get_buffer request fails with -1. -/
def env_no_buffer : DecodeEnv :=
  env_of 3 (-1) AAC_DECODER_ERROR.AAC_DEC_OK [1, 2, 3, 4] (some ⟨44100, 2, 1⟩)

/-! ## Initialisation -/

/-- C8: aac_decode_init opens the decoder first, in raw mode exactly when
extradata_size is non-zero and in ADTS mode otherwise; it pushes the side-band
bytes exactly when extradata_size is non-zero, as the only call after the open;
it returns 0 exactly when there is no side-band data or the push is accepted,
and then the sample format is signed 16-bit. -/
theorem aac_decode_init_mode_and_push (ec : ErrorCodes) (avctx : AVCodecContext)
    (env : InitEnv) :
    (avctx.extradata_size ≠ 0 ↔
      (aac_decode_init ec avctx env).trace =
        [Event.aacDecoder_Open TRANSPORT_TYPE.TT_MP4_RAW 1
           (env.open_handle TRANSPORT_TYPE.TT_MP4_RAW),
         Event.aacDecoder_ConfigRaw (env.open_handle TRANSPORT_TYPE.TT_MP4_RAW)
           avctx.extradata_size env.config_raw]) ∧
    (avctx.extradata_size = 0 ↔
      (aac_decode_init ec avctx env).trace =
        [Event.aacDecoder_Open TRANSPORT_TYPE.TT_MP4_ADTS 1
           (env.open_handle TRANSPORT_TYPE.TT_MP4_ADTS)]) ∧
    ((aac_decode_init ec avctx env).ret = 0 ↔
      (avctx.extradata_size = 0 ∨ env.config_raw = AAC_DECODER_ERROR.AAC_DEC_OK)) ∧
    ((aac_decode_init ec avctx env).ret = 0 →
      (aac_decode_init ec avctx env).avctx.sample_fmt = AVSampleFormat.AV_SAMPLE_FMT_S16) := by
  have hne : ec.AVERROR_EINVAL ≠ 0 := ne_of_lt ec.einval_neg
  unfold aac_decode_init
  by_cases hx : avctx.extradata_size = 0
  · simp [hx]
  · by_cases hc : env.config_raw = AAC_DECODER_ERROR.AAC_DEC_OK
    · simp [hx, hc]
    · simp [hx, hc, hne]

/-- C7 fails on the code: with side-band bytes present and the push rejected,
init returns the error -22 while handle 7, opened in this call, was not closed:
the trace of init is the open and the rejected push, and the handle is still
stored in the private context. -/
theorem aac_decode_init_rejected_push_leaves_handle_open :
    (ctx_fresh 0 2).extradata_size ≠ 0 ∧
    init_env_reject.config_raw ≠ AAC_DECODER_ERROR.AAC_DEC_OK ∧
    (aac_decode_init posixErrorCodes (ctx_fresh 0 2) init_env_reject).ret = -22 ∧
    (aac_decode_init posixErrorCodes (ctx_fresh 0 2) init_env_reject).trace =
      [Event.aacDecoder_Open TRANSPORT_TYPE.TT_MP4_RAW 1 (some 7),
       Event.aacDecoder_ConfigRaw (some 7) 2 (AAC_DECODER_ERROR.other 5)] ∧
    (aac_decode_init posixErrorCodes (ctx_fresh 0 2) init_env_reject).avctx.priv_data.handle
      = some 7 ∧
    7 ∉ closed_handles (aac_decode_init posixErrorCodes (ctx_fresh 0 2) init_env_reject).trace := by
  decide

/-- The failed-configuration path of aac_decode_init in general: init returns
the negative error AVERROR(EINVAL) and closes nothing; the handle it opened
stays stored in the private context, where a later aac_decode_close would find
and close it when it is not NULL. -/
lemma init_rejected_push_keeps_handle (ec : ErrorCodes) (avctx : AVCodecContext)
    (env : InitEnv) (hx : avctx.extradata_size ≠ 0)
    (hc : env.config_raw ≠ AAC_DECODER_ERROR.AAC_DEC_OK) :
    (aac_decode_init ec avctx env).ret = ec.AVERROR_EINVAL ∧
    (aac_decode_init ec avctx env).ret < 0 ∧
    closed_handles (aac_decode_init ec avctx env).trace = [] ∧
    (aac_decode_init ec avctx env).avctx.priv_data.handle
      = env.open_handle TRANSPORT_TYPE.TT_MP4_RAW ∧
    closed_handles (aac_decode_close (aac_decode_init ec avctx env).avctx).trace
      = (env.open_handle TRANSPORT_TYPE.TT_MP4_RAW).toList := by
  have hneg := ec.einval_neg
  unfold aac_decode_init aac_decode_close
  cases ho : env.open_handle TRANSPORT_TYPE.TT_MP4_RAW <;>
    simp [hx, hc, hneg, ho, closed_handles]

/-! ## Machine integer lemmas -/

lemma wrapInt32_of_range (x : Int) (hlo : -2147483648 ≤ x) (hhi : x < 2147483648) :
    wrapInt32 x = x := by
  unfold wrapInt32
  have h : (x + 2147483648) % 4294967296 = x + 2147483648 :=
    Int.emod_eq_of_lt (by omega) (by omega)
  omega

/-- The returned byte count avpkt->size - valid, when the decoder left at most
the packet unconsumed. -/
lemma consumed_exact (size : Int) (valid : Nat) (h0 : 0 ≤ size) (h1 : size < 2147483648)
    (h2 : (valid : Int) ≤ size) :
    wrapInt32 (size - valid) = size - valid ∧ 0 ≤ size - (valid : Int) ∧
      size - (valid : Int) ≤ size := by
  refine ⟨wrapInt32_of_range _ (by omega) (by omega), by omega, by omega⟩

/-! ## Decoding one packet -/

lemma frame_fill_fail (ec : ErrorCodes) (avctx : AVCodecContext) (avpkt : AVPacket)
    (env : DecodeEnv) (hf : env.fill_err ≠ AAC_DECODER_ERROR.AAC_DEC_OK) :
    aac_decode_frame ec avctx avpkt env =
      { avctx := avctx, ret := ec.AVERROR_INVALIDDATA, got_frame := none, data := none,
        trace := [Event.aacDecoder_Fill avpkt.size (toUINT avpkt.size) env.fill_err
          env.fill_valid] } := by
  unfold aac_decode_frame
  simp only [hf, ne_eq, not_false_eq_true, if_true]

lemma frame_direct_fail (ec : ErrorCodes) (avctx : AVCodecContext) (avpkt : AVPacket)
    (env : DecodeEnv) (hf : env.fill_err = AAC_DECODER_ERROR.AAC_DEC_OK)
    (hc : avctx.channels ≠ 0)
    (hg : (env.get_buffer avctx.channels (direct_nb_samples avctx)).1 < 0) :
    aac_decode_frame ec avctx avpkt env =
      { avctx := { avctx with
          priv_data := { avctx.priv_data with
            frame := { avctx.priv_data.frame with nb_samples := direct_nb_samples avctx } } },
        ret := (env.get_buffer avctx.channels (direct_nb_samples avctx)).1,
        got_frame := none, data := none,
        trace := [Event.aacDecoder_Fill avpkt.size (toUINT avpkt.size) env.fill_err
          env.fill_valid,
          Event.get_buffer avctx.channels (direct_nb_samples avctx)
            (env.get_buffer avctx.channels (direct_nb_samples avctx)).1] } := by
  unfold direct_nb_samples at hg ⊢
  unfold aac_decode_frame
  simp only [hf, hc, hg, ne_eq, not_true_eq_false, not_false_eq_true, if_true, if_false,
    List.singleton_append]

lemma frame_direct (ec : ErrorCodes) (avctx : AVCodecContext) (avpkt : AVPacket)
    (env : DecodeEnv) (hf : env.fill_err = AAC_DECODER_ERROR.AAC_DEC_OK)
    (hc : avctx.channels ≠ 0)
    (hg : ¬ (env.get_buffer avctx.channels (direct_nb_samples avctx)).1 < 0) :
    aac_decode_frame ec avctx avpkt env =
      aac_decode_frame_decode ec (direct_ctx avctx env) avpkt env env.fill_valid
        (direct_buf_size avctx) none
        [Event.aacDecoder_Fill avpkt.size (toUINT avpkt.size) env.fill_err env.fill_valid,
          Event.get_buffer avctx.channels (direct_nb_samples avctx)
            (env.get_buffer avctx.channels (direct_nb_samples avctx)).1] := by
  unfold direct_buf_size
  unfold direct_nb_samples at hg ⊢
  unfold aac_decode_frame direct_ctx
  simp only [hf, hc, hg, ne_eq, not_true_eq_false, not_false_eq_true, if_true, if_false,
    List.singleton_append]

lemma frame_malloc_fail (ec : ErrorCodes) (avctx : AVCodecContext) (avpkt : AVPacket)
    (env : DecodeEnv) (hf : env.fill_err = AAC_DECODER_ERROR.AAC_DEC_OK)
    (hc : avctx.channels = 0) (hm : env.av_malloc = none) :
    aac_decode_frame ec avctx avpkt env =
      { avctx := avctx, ret := ec.AVERROR_ENOMEM, got_frame := none, data := none,
        trace := [Event.aacDecoder_Fill avpkt.size (toUINT avpkt.size) env.fill_err
          env.fill_valid, Event.av_malloc 51200 false] } := by
  unfold aac_decode_frame
  simp only [hf, hc, hm, ne_eq, not_true_eq_false, if_false, List.singleton_append]
  norm_num

lemma frame_scratch (ec : ErrorCodes) (avctx : AVCodecContext) (avpkt : AVPacket)
    (env : DecodeEnv) (m : List Byte) (hf : env.fill_err = AAC_DECODER_ERROR.AAC_DEC_OK)
    (hc : avctx.channels = 0) (hm : env.av_malloc = some m) :
    aac_decode_frame ec avctx avpkt env =
      aac_decode_frame_decode ec avctx avpkt env env.fill_valid 51200 (some m)
        [Event.aacDecoder_Fill avpkt.size (toUINT avpkt.size) env.fill_err env.fill_valid,
          Event.av_malloc 51200 true] := by
  unfold aac_decode_frame
  simp only [hf, hc, hm, ne_eq, not_true_eq_false, if_false, List.singleton_append]
  norm_num

lemma decode_not_enough_bits (ec : ErrorCodes) (avctx : AVCodecContext) (avpkt : AVPacket)
    (env : DecodeEnv) (valid : Nat) (buf_size : Int) (tmpptr : Option (List Byte))
    (t : List Event)
    (he : (env.decode buf_size).1 = AAC_DECODER_ERROR.AAC_DEC_NOT_ENOUGH_BITS) :
    aac_decode_frame_decode ec avctx avpkt env valid buf_size tmpptr t =
      { avctx := written_ctx avctx env buf_size tmpptr,
        ret := wrapInt32 (avpkt.size - valid), got_frame := none, data := none,
        trace := t ++ [Event.aacDecoder_DecodeFrame buf_size
          AAC_DECODER_ERROR.AAC_DEC_NOT_ENOUGH_BITS,
          av_free_event (written_tmp env buf_size tmpptr)] } := by
  unfold aac_decode_frame_decode written_ctx written_tmp
  simp only [he, if_true, List.append_assoc, List.singleton_append]

lemma decode_failed (ec : ErrorCodes) (avctx : AVCodecContext) (avpkt : AVPacket)
    (env : DecodeEnv) (valid : Nat) (buf_size : Int) (tmpptr : Option (List Byte))
    (t : List Event)
    (h1 : (env.decode buf_size).1 ≠ AAC_DECODER_ERROR.AAC_DEC_NOT_ENOUGH_BITS)
    (h2 : (env.decode buf_size).1 ≠ AAC_DECODER_ERROR.AAC_DEC_OK) :
    aac_decode_frame_decode ec avctx avpkt env valid buf_size tmpptr t =
      { avctx := written_ctx avctx env buf_size tmpptr,
        ret := ec.AVERROR_INVALIDDATA, got_frame := none, data := none,
        trace := t ++ [Event.aacDecoder_DecodeFrame buf_size (env.decode buf_size).1,
          av_free_event (written_tmp env buf_size tmpptr)] } := by
  unfold aac_decode_frame_decode written_ctx written_tmp
  simp only [h1, h2, ne_eq, not_false_eq_true, if_true, if_false, List.append_assoc,
    List.singleton_append]

lemma written_ctx_initialized (avctx : AVCodecContext) (env : DecodeEnv) (buf_size : Int)
    (tmpptr : Option (List Byte)) :
    (written_ctx avctx env buf_size tmpptr).priv_data.initialized =
      avctx.priv_data.initialized := by
  unfold written_ctx
  cases written_tmp env buf_size tmpptr <;> rfl

lemma decode_unresolved (ec : ErrorCodes) (avctx : AVCodecContext) (avpkt : AVPacket)
    (env : DecodeEnv) (valid : Nat) (buf_size : Int) (tmpptr : Option (List Byte))
    (t : List Event)
    (he : (env.decode buf_size).1 = AAC_DECODER_ERROR.AAC_DEC_OK)
    (hi : avctx.priv_data.initialized = 0) (hr : resolvable env.stream_info = false) :
    aac_decode_frame_decode ec avctx avpkt env valid buf_size tmpptr t =
      { avctx := written_ctx avctx env buf_size tmpptr,
        ret := ec.AVERROR_EINVAL, got_frame := none, data := none,
        trace := t ++ [Event.aacDecoder_DecodeFrame buf_size AAC_DECODER_ERROR.AAC_DEC_OK,
          Event.aacDecoder_GetStreamInfo env.stream_info,
          av_free_event (written_tmp env buf_size tmpptr)] } := by
  have hneg := ec.einval_neg
  have hi1 : (1 : Int) ≠ 0 := by decide
  unfold aac_decode_frame_decode written_ctx written_tmp aac_get_stream_info
  cases hs : env.stream_info with
  | none =>
    cases tmpptr <;>
      simp only [he, hi, hneg, Option.map, ne_eq, not_true_eq_false, if_true, if_false,
        List.append_assoc, List.singleton_append, List.cons_append, List.nil_append,
        reduceCtorEq]
  | some info =>
    have hle : info.sampleRate ≤ 0 := by
      simpa [resolvable, hs] using hr
    cases tmpptr <;>
      simp only [he, hi, hle, hneg, Option.map, ne_eq, not_true_eq_false, if_true, if_false,
        List.append_assoc, List.singleton_append, List.cons_append, List.nil_append,
        reduceCtorEq]

lemma decode_resolves (ec : ErrorCodes) (avctx : AVCodecContext) (avpkt : AVPacket)
    (env : DecodeEnv) (valid : Nat) (buf_size : Int) (tmpptr : Option (List Byte))
    (t : List Event) (info : CStreamInfo)
    (he : (env.decode buf_size).1 = AAC_DECODER_ERROR.AAC_DEC_OK)
    (hi : avctx.priv_data.initialized = 0) (hs : env.stream_info = some info)
    (hr : 0 < info.sampleRate) :
    aac_decode_frame_decode ec avctx avpkt env valid buf_size tmpptr t =
      aac_decode_frame_output (resolved_ctx (written_ctx avctx env buf_size tmpptr) info)
        avpkt env valid (written_tmp env buf_size tmpptr)
        (t ++ [Event.aacDecoder_DecodeFrame buf_size AAC_DECODER_ERROR.AAC_DEC_OK,
          Event.aacDecoder_GetStreamInfo (some info)]) := by
  have hle : ¬ info.sampleRate ≤ 0 := not_le.mpr hr
  unfold aac_decode_frame_decode resolved_ctx written_ctx written_tmp aac_get_stream_info
  cases tmpptr <;>
    simp only [he, hi, hs, hle, Option.map, ne_eq, not_true_eq_false, if_true, if_false,
      List.append_assoc, List.singleton_append, List.cons_append, List.nil_append,
      reduceCtorEq, lt_self_iff_false]

lemma decode_resolved (ec : ErrorCodes) (avctx : AVCodecContext) (avpkt : AVPacket)
    (env : DecodeEnv) (valid : Nat) (buf_size : Int) (tmpptr : Option (List Byte))
    (t : List Event)
    (he : (env.decode buf_size).1 = AAC_DECODER_ERROR.AAC_DEC_OK)
    (hi : avctx.priv_data.initialized ≠ 0) :
    aac_decode_frame_decode ec avctx avpkt env valid buf_size tmpptr t =
      aac_decode_frame_output (written_ctx avctx env buf_size tmpptr)
        avpkt env valid (written_tmp env buf_size tmpptr)
        (t ++ [Event.aacDecoder_DecodeFrame buf_size AAC_DECODER_ERROR.AAC_DEC_OK]) := by
  unfold aac_decode_frame_decode written_ctx written_tmp
  cases tmpptr <;>
    simp only [he, hi, Option.map, ne_eq, not_true_eq_false, if_true, if_false, reduceCtorEq]


lemma output_direct (avctx : AVCodecContext) (avpkt : AVPacket) (env : DecodeEnv)
    (valid : Nat) (t : List Event) :
    aac_decode_frame_output avctx avpkt env valid none t =
      { avctx := avctx, ret := wrapInt32 (avpkt.size - valid), got_frame := some 1,
        data := some avctx.priv_data.frame, trace := t ++ [Event.av_free false] } := rfl

lemma output_fail (avctx : AVCodecContext) (avpkt : AVPacket) (env : DecodeEnv)
    (valid : Nat) (tmp : List Byte) (t : List Event)
    (hg : (env.get_buffer avctx.channels avctx.frame_size).1 < 0) :
    aac_decode_frame_output avctx avpkt env valid (some tmp) t =
      { avctx := scratch_request_ctx avctx,
        ret := (env.get_buffer avctx.channels avctx.frame_size).1,
        got_frame := none, data := none,
        trace := t ++ [Event.get_buffer avctx.channels avctx.frame_size
          (env.get_buffer avctx.channels avctx.frame_size).1] } := by
  unfold aac_decode_frame_output scratch_request_ctx
  simp only [hg, if_true]

lemma output_copy (avctx : AVCodecContext) (avpkt : AVPacket) (env : DecodeEnv)
    (valid : Nat) (tmp : List Byte) (t : List Event)
    (hg : ¬ (env.get_buffer avctx.channels avctx.frame_size).1 < 0) :
    aac_decode_frame_output avctx avpkt env valid (some tmp) t =
      { avctx := scratch_out_ctx avctx env tmp,
        ret := wrapInt32 (avpkt.size - valid), got_frame := some 1,
        data := some (scratch_out_ctx avctx env tmp).priv_data.frame,
        trace := t ++ [Event.get_buffer avctx.channels avctx.frame_size
          (env.get_buffer avctx.channels avctx.frame_size).1,
          Event.memcpy (wrapInt32 (2 * avctx.channels * avctx.frame_size)),
          Event.av_free true] } := by
  unfold aac_decode_frame_output scratch_out_ctx
  simp only [hg, if_false, List.append_assoc, List.singleton_append]

lemma written_tmp_none (env : DecodeEnv) (buf_size : Int) :
    written_tmp env buf_size none = none := rfl

lemma written_tmp_some (env : DecodeEnv) (buf_size : Int) (m : List Byte) :
    written_tmp env buf_size (some m) = some (pcm_write m buf_size (env.decode buf_size).2) :=
  rfl

lemma written_ctx_some (avctx : AVCodecContext) (env : DecodeEnv) (buf_size : Int)
    (m : List Byte) : written_ctx avctx env buf_size (some m) = avctx := rfl

lemma resolvable_true (info : Option CStreamInfo) (h : ¬ resolvable info = false) :
    ∃ i, info = some i ∧ 0 < i.sampleRate := by
  cases info with
  | none => simp [resolvable] at h
  | some i => exact ⟨i, rfl, by simpa [resolvable] using h⟩

/-- Every call of aac_decode_frame takes one of fifteen paths; for each the
conditions under which it is taken and the complete outcome.  (The bound names
m and info are the scratch memory and the stream information where the path
has them.) -/
theorem frame_paths (ec : ErrorCodes) (avctx : AVCodecContext) (avpkt : AVPacket)
    (env : DecodeEnv) :
    (∃ (m : List Byte) (info : CStreamInfo),
        (env.fill_err ≠ AAC_DECODER_ERROR.AAC_DEC_OK) ∧
        aac_decode_frame ec avctx avpkt env =
        { avctx := avctx, ret := ec.AVERROR_INVALIDDATA,
          got_frame := none, data := none,
          trace := [Event.aacDecoder_Fill avpkt.size (toUINT avpkt.size) env.fill_err env.fill_valid] }) ∨
    (∃ (m : List Byte) (info : CStreamInfo),
        (env.fill_err = AAC_DECODER_ERROR.AAC_DEC_OK ∧ avctx.channels ≠ 0 ∧ (env.get_buffer avctx.channels (direct_nb_samples avctx)).1 < 0) ∧
        aac_decode_frame ec avctx avpkt env =
        { avctx := { avctx with priv_data := { avctx.priv_data with
            frame := { avctx.priv_data.frame with nb_samples := direct_nb_samples avctx } } }, ret := (env.get_buffer avctx.channels (direct_nb_samples avctx)).1,
          got_frame := none, data := none,
          trace := [Event.aacDecoder_Fill avpkt.size (toUINT avpkt.size) env.fill_err env.fill_valid,
            Event.get_buffer avctx.channels (direct_nb_samples avctx)
            (env.get_buffer avctx.channels (direct_nb_samples avctx)).1] }) ∨
    (∃ (m : List Byte) (info : CStreamInfo),
        (env.fill_err = AAC_DECODER_ERROR.AAC_DEC_OK ∧ avctx.channels = 0 ∧ env.av_malloc = none) ∧
        aac_decode_frame ec avctx avpkt env =
        { avctx := avctx, ret := ec.AVERROR_ENOMEM,
          got_frame := none, data := none,
          trace := [Event.aacDecoder_Fill avpkt.size (toUINT avpkt.size) env.fill_err env.fill_valid,
            Event.av_malloc 51200 false] }) ∨
    (∃ (m : List Byte) (info : CStreamInfo),
        (env.fill_err = AAC_DECODER_ERROR.AAC_DEC_OK ∧ avctx.channels ≠ 0 ∧ ¬ (env.get_buffer avctx.channels (direct_nb_samples avctx)).1 < 0 ∧ (env.decode (direct_buf_size avctx)).1 = AAC_DECODER_ERROR.AAC_DEC_NOT_ENOUGH_BITS) ∧
        aac_decode_frame ec avctx avpkt env =
        { avctx := direct_written avctx env, ret := wrapInt32 (avpkt.size - env.fill_valid),
          got_frame := none, data := none,
          trace := [Event.aacDecoder_Fill avpkt.size (toUINT avpkt.size) env.fill_err env.fill_valid,
            Event.get_buffer avctx.channels (direct_nb_samples avctx)
            (env.get_buffer avctx.channels (direct_nb_samples avctx)).1,
            Event.aacDecoder_DecodeFrame (direct_buf_size avctx) AAC_DECODER_ERROR.AAC_DEC_NOT_ENOUGH_BITS,
            Event.av_free false] }) ∨
    (∃ (m : List Byte) (info : CStreamInfo),
        (env.fill_err = AAC_DECODER_ERROR.AAC_DEC_OK ∧ avctx.channels ≠ 0 ∧ ¬ (env.get_buffer avctx.channels (direct_nb_samples avctx)).1 < 0 ∧ (env.decode (direct_buf_size avctx)).1 ≠ AAC_DECODER_ERROR.AAC_DEC_NOT_ENOUGH_BITS ∧ (env.decode (direct_buf_size avctx)).1 ≠ AAC_DECODER_ERROR.AAC_DEC_OK) ∧
        aac_decode_frame ec avctx avpkt env =
        { avctx := direct_written avctx env, ret := ec.AVERROR_INVALIDDATA,
          got_frame := none, data := none,
          trace := [Event.aacDecoder_Fill avpkt.size (toUINT avpkt.size) env.fill_err env.fill_valid,
            Event.get_buffer avctx.channels (direct_nb_samples avctx)
            (env.get_buffer avctx.channels (direct_nb_samples avctx)).1,
            Event.aacDecoder_DecodeFrame (direct_buf_size avctx) (env.decode (direct_buf_size avctx)).1,
            Event.av_free false] }) ∨
    (∃ (m : List Byte) (info : CStreamInfo),
        (env.fill_err = AAC_DECODER_ERROR.AAC_DEC_OK ∧ avctx.channels ≠ 0 ∧ ¬ (env.get_buffer avctx.channels (direct_nb_samples avctx)).1 < 0 ∧ (env.decode (direct_buf_size avctx)).1 = AAC_DECODER_ERROR.AAC_DEC_OK ∧ avctx.priv_data.initialized = 0 ∧ resolvable env.stream_info = false) ∧
        aac_decode_frame ec avctx avpkt env =
        { avctx := direct_written avctx env, ret := ec.AVERROR_EINVAL,
          got_frame := none, data := none,
          trace := [Event.aacDecoder_Fill avpkt.size (toUINT avpkt.size) env.fill_err env.fill_valid,
            Event.get_buffer avctx.channels (direct_nb_samples avctx)
            (env.get_buffer avctx.channels (direct_nb_samples avctx)).1,
            Event.aacDecoder_DecodeFrame (direct_buf_size avctx) AAC_DECODER_ERROR.AAC_DEC_OK,
            Event.aacDecoder_GetStreamInfo env.stream_info,
            Event.av_free false] }) ∨
    (∃ (m : List Byte) (info : CStreamInfo),
        (env.fill_err = AAC_DECODER_ERROR.AAC_DEC_OK ∧ avctx.channels ≠ 0 ∧ ¬ (env.get_buffer avctx.channels (direct_nb_samples avctx)).1 < 0 ∧ (env.decode (direct_buf_size avctx)).1 = AAC_DECODER_ERROR.AAC_DEC_OK ∧ avctx.priv_data.initialized = 0 ∧ env.stream_info = some info ∧ 0 < info.sampleRate) ∧
        aac_decode_frame ec avctx avpkt env =
        { avctx := resolved_ctx (direct_written avctx env) info, ret := wrapInt32 (avpkt.size - env.fill_valid),
          got_frame := some 1, data := some (resolved_ctx (direct_written avctx env) info).priv_data.frame,
          trace := [Event.aacDecoder_Fill avpkt.size (toUINT avpkt.size) env.fill_err env.fill_valid,
            Event.get_buffer avctx.channels (direct_nb_samples avctx)
            (env.get_buffer avctx.channels (direct_nb_samples avctx)).1,
            Event.aacDecoder_DecodeFrame (direct_buf_size avctx) AAC_DECODER_ERROR.AAC_DEC_OK,
            Event.aacDecoder_GetStreamInfo (some info),
            Event.av_free false] }) ∨
    (∃ (m : List Byte) (info : CStreamInfo),
        (env.fill_err = AAC_DECODER_ERROR.AAC_DEC_OK ∧ avctx.channels ≠ 0 ∧ ¬ (env.get_buffer avctx.channels (direct_nb_samples avctx)).1 < 0 ∧ (env.decode (direct_buf_size avctx)).1 = AAC_DECODER_ERROR.AAC_DEC_OK ∧ avctx.priv_data.initialized ≠ 0) ∧
        aac_decode_frame ec avctx avpkt env =
        { avctx := direct_written avctx env, ret := wrapInt32 (avpkt.size - env.fill_valid),
          got_frame := some 1, data := some (direct_written avctx env).priv_data.frame,
          trace := [Event.aacDecoder_Fill avpkt.size (toUINT avpkt.size) env.fill_err env.fill_valid,
            Event.get_buffer avctx.channels (direct_nb_samples avctx)
            (env.get_buffer avctx.channels (direct_nb_samples avctx)).1,
            Event.aacDecoder_DecodeFrame (direct_buf_size avctx) AAC_DECODER_ERROR.AAC_DEC_OK,
            Event.av_free false] }) ∨
    (∃ (m : List Byte) (info : CStreamInfo),
        (env.fill_err = AAC_DECODER_ERROR.AAC_DEC_OK ∧ avctx.channels = 0 ∧ env.av_malloc = some m ∧ (env.decode 51200).1 = AAC_DECODER_ERROR.AAC_DEC_NOT_ENOUGH_BITS) ∧
        aac_decode_frame ec avctx avpkt env =
        { avctx := avctx, ret := wrapInt32 (avpkt.size - env.fill_valid),
          got_frame := none, data := none,
          trace := [Event.aacDecoder_Fill avpkt.size (toUINT avpkt.size) env.fill_err env.fill_valid,
            Event.av_malloc 51200 true,
            Event.aacDecoder_DecodeFrame 51200 AAC_DECODER_ERROR.AAC_DEC_NOT_ENOUGH_BITS,
            Event.av_free true] }) ∨
    (∃ (m : List Byte) (info : CStreamInfo),
        (env.fill_err = AAC_DECODER_ERROR.AAC_DEC_OK ∧ avctx.channels = 0 ∧ env.av_malloc = some m ∧ (env.decode 51200).1 ≠ AAC_DECODER_ERROR.AAC_DEC_NOT_ENOUGH_BITS ∧ (env.decode 51200).1 ≠ AAC_DECODER_ERROR.AAC_DEC_OK) ∧
        aac_decode_frame ec avctx avpkt env =
        { avctx := avctx, ret := ec.AVERROR_INVALIDDATA,
          got_frame := none, data := none,
          trace := [Event.aacDecoder_Fill avpkt.size (toUINT avpkt.size) env.fill_err env.fill_valid,
            Event.av_malloc 51200 true,
            Event.aacDecoder_DecodeFrame 51200 (env.decode 51200).1,
            Event.av_free true] }) ∨
    (∃ (m : List Byte) (info : CStreamInfo),
        (env.fill_err = AAC_DECODER_ERROR.AAC_DEC_OK ∧ avctx.channels = 0 ∧ env.av_malloc = some m ∧ (env.decode 51200).1 = AAC_DECODER_ERROR.AAC_DEC_OK ∧ avctx.priv_data.initialized = 0 ∧ resolvable env.stream_info = false) ∧
        aac_decode_frame ec avctx avpkt env =
        { avctx := avctx, ret := ec.AVERROR_EINVAL,
          got_frame := none, data := none,
          trace := [Event.aacDecoder_Fill avpkt.size (toUINT avpkt.size) env.fill_err env.fill_valid,
            Event.av_malloc 51200 true,
            Event.aacDecoder_DecodeFrame 51200 AAC_DECODER_ERROR.AAC_DEC_OK,
            Event.aacDecoder_GetStreamInfo env.stream_info,
            Event.av_free true] }) ∨
    (∃ (m : List Byte) (info : CStreamInfo),
        (env.fill_err = AAC_DECODER_ERROR.AAC_DEC_OK ∧ avctx.channels = 0 ∧ env.av_malloc = some m ∧ (env.decode 51200).1 = AAC_DECODER_ERROR.AAC_DEC_OK ∧ avctx.priv_data.initialized = 0 ∧ env.stream_info = some info ∧ 0 < info.sampleRate ∧
          (env.get_buffer (resolved_ctx avctx info).channels (resolved_ctx avctx info).frame_size).1 < 0) ∧
        aac_decode_frame ec avctx avpkt env =
        { avctx := scratch_request_ctx (resolved_ctx avctx info), ret := (env.get_buffer (resolved_ctx avctx info).channels (resolved_ctx avctx info).frame_size).1,
          got_frame := none, data := none,
          trace := [Event.aacDecoder_Fill avpkt.size (toUINT avpkt.size) env.fill_err env.fill_valid,
            Event.av_malloc 51200 true,
            Event.aacDecoder_DecodeFrame 51200 AAC_DECODER_ERROR.AAC_DEC_OK,
            Event.aacDecoder_GetStreamInfo (some info),
            Event.get_buffer (resolved_ctx avctx info).channels (resolved_ctx avctx info).frame_size
              (env.get_buffer (resolved_ctx avctx info).channels (resolved_ctx avctx info).frame_size).1] }) ∨
    (∃ (m : List Byte) (info : CStreamInfo),
        (env.fill_err = AAC_DECODER_ERROR.AAC_DEC_OK ∧ avctx.channels = 0 ∧ env.av_malloc = some m ∧ (env.decode 51200).1 = AAC_DECODER_ERROR.AAC_DEC_OK ∧ avctx.priv_data.initialized = 0 ∧ env.stream_info = some info ∧ 0 < info.sampleRate ∧
          ¬ (env.get_buffer (resolved_ctx avctx info).channels (resolved_ctx avctx info).frame_size).1 < 0) ∧
        aac_decode_frame ec avctx avpkt env =
        { avctx := scratch_out_ctx (resolved_ctx avctx info) env (scratch_written env m), ret := wrapInt32 (avpkt.size - env.fill_valid),
          got_frame := some 1, data := some (scratch_out_ctx (resolved_ctx avctx info) env (scratch_written env m)).priv_data.frame,
          trace := [Event.aacDecoder_Fill avpkt.size (toUINT avpkt.size) env.fill_err env.fill_valid,
            Event.av_malloc 51200 true,
            Event.aacDecoder_DecodeFrame 51200 AAC_DECODER_ERROR.AAC_DEC_OK,
            Event.aacDecoder_GetStreamInfo (some info),
            Event.get_buffer (resolved_ctx avctx info).channels (resolved_ctx avctx info).frame_size
              (env.get_buffer (resolved_ctx avctx info).channels (resolved_ctx avctx info).frame_size).1,
            Event.memcpy (wrapInt32 (2 * (resolved_ctx avctx info).channels * (resolved_ctx avctx info).frame_size)),
            Event.av_free true] }) ∨
    (∃ (m : List Byte) (info : CStreamInfo),
        (env.fill_err = AAC_DECODER_ERROR.AAC_DEC_OK ∧ avctx.channels = 0 ∧ env.av_malloc = some m ∧ (env.decode 51200).1 = AAC_DECODER_ERROR.AAC_DEC_OK ∧ avctx.priv_data.initialized ≠ 0 ∧
          (env.get_buffer avctx.channels avctx.frame_size).1 < 0) ∧
        aac_decode_frame ec avctx avpkt env =
        { avctx := scratch_request_ctx avctx, ret := (env.get_buffer avctx.channels avctx.frame_size).1,
          got_frame := none, data := none,
          trace := [Event.aacDecoder_Fill avpkt.size (toUINT avpkt.size) env.fill_err env.fill_valid,
            Event.av_malloc 51200 true,
            Event.aacDecoder_DecodeFrame 51200 AAC_DECODER_ERROR.AAC_DEC_OK,
            Event.get_buffer avctx.channels avctx.frame_size
              (env.get_buffer avctx.channels avctx.frame_size).1] }) ∨
    (∃ (m : List Byte) (info : CStreamInfo),
        (env.fill_err = AAC_DECODER_ERROR.AAC_DEC_OK ∧ avctx.channels = 0 ∧ env.av_malloc = some m ∧ (env.decode 51200).1 = AAC_DECODER_ERROR.AAC_DEC_OK ∧ avctx.priv_data.initialized ≠ 0 ∧
          ¬ (env.get_buffer avctx.channels avctx.frame_size).1 < 0) ∧
        aac_decode_frame ec avctx avpkt env =
        { avctx := scratch_out_ctx avctx env (scratch_written env m), ret := wrapInt32 (avpkt.size - env.fill_valid),
          got_frame := some 1, data := some (scratch_out_ctx avctx env (scratch_written env m)).priv_data.frame,
          trace := [Event.aacDecoder_Fill avpkt.size (toUINT avpkt.size) env.fill_err env.fill_valid,
            Event.av_malloc 51200 true,
            Event.aacDecoder_DecodeFrame 51200 AAC_DECODER_ERROR.AAC_DEC_OK,
            Event.get_buffer avctx.channels avctx.frame_size
              (env.get_buffer avctx.channels avctx.frame_size).1,
            Event.memcpy (wrapInt32 (2 * avctx.channels * avctx.frame_size)),
            Event.av_free true] }) := by
  have dinfo : CStreamInfo := ⟨0, 0, 0⟩
  by_cases hf : env.fill_err = AAC_DECODER_ERROR.AAC_DEC_OK
  swap
  · exact Or.inl (⟨[], dinfo, hf, frame_fill_fail ec avctx avpkt env hf⟩)
  by_cases hc : avctx.channels = 0
  · rcases Option.eq_none_or_eq_some env.av_malloc with hm | ⟨m, hm⟩
    · exact Or.inr (Or.inr (Or.inl (⟨[], dinfo, ⟨hf, hc, hm⟩, frame_malloc_fail ec avctx avpkt env hf hc hm⟩)))
    · rw [frame_scratch ec avctx avpkt env m hf hc hm]
      by_cases h1 : (env.decode 51200).1 = AAC_DECODER_ERROR.AAC_DEC_NOT_ENOUGH_BITS
      · refine Or.inr (Or.inr (Or.inr (Or.inr (Or.inr (Or.inr (Or.inr (Or.inr (Or.inl (⟨m, dinfo, ⟨hf, hc, hm, h1⟩, ?_⟩)))))))))
        rw [decode_not_enough_bits _ _ _ _ _ _ _ _ h1]; rfl
      by_cases h2 : (env.decode 51200).1 = AAC_DECODER_ERROR.AAC_DEC_OK
      swap
      · refine Or.inr (Or.inr (Or.inr (Or.inr (Or.inr (Or.inr (Or.inr (Or.inr (Or.inr (Or.inl (⟨m, dinfo, ⟨hf, hc, hm, h1, h2⟩, ?_⟩))))))))))
        rw [decode_failed _ _ _ _ _ _ _ _ h1 h2]; rfl
      by_cases hi : avctx.priv_data.initialized = 0
      · by_cases hr : resolvable env.stream_info = false
        · refine Or.inr (Or.inr (Or.inr (Or.inr (Or.inr (Or.inr (Or.inr (Or.inr (Or.inr (Or.inr (Or.inl (⟨m, dinfo, ⟨hf, hc, hm, h2, hi, hr⟩, ?_⟩)))))))))))
          rw [decode_unresolved _ _ _ _ _ _ _ _ h2 hi hr]; rfl
        · obtain ⟨info, hs, hpos⟩ := resolvable_true _ hr
          rw [decode_resolves _ _ _ _ _ _ _ _ info h2 hi hs hpos, written_tmp_some, written_ctx_some]
          by_cases hg2 : (env.get_buffer (resolved_ctx avctx info).channels (resolved_ctx avctx info).frame_size).1 < 0
          · refine Or.inr (Or.inr (Or.inr (Or.inr (Or.inr (Or.inr (Or.inr (Or.inr (Or.inr (Or.inr (Or.inr (Or.inl (⟨m, info, ⟨hf, hc, hm, h2, hi, hs, hpos, hg2⟩, ?_⟩))))))))))))
            rw [output_fail _ _ _ _ _ _ hg2]; rfl
          · refine Or.inr (Or.inr (Or.inr (Or.inr (Or.inr (Or.inr (Or.inr (Or.inr (Or.inr (Or.inr (Or.inr (Or.inr (Or.inl (⟨m, info, ⟨hf, hc, hm, h2, hi, hs, hpos, hg2⟩, ?_⟩)))))))))))))
            rw [output_copy _ _ _ _ _ _ hg2]; rfl
      · rw [decode_resolved _ _ _ _ _ _ _ _ h2 hi, written_tmp_some, written_ctx_some]
        by_cases hg2 : (env.get_buffer avctx.channels avctx.frame_size).1 < 0
        · refine Or.inr (Or.inr (Or.inr (Or.inr (Or.inr (Or.inr (Or.inr (Or.inr (Or.inr (Or.inr (Or.inr (Or.inr (Or.inr (Or.inl (⟨m, dinfo, ⟨hf, hc, hm, h2, hi, hg2⟩, ?_⟩))))))))))))))
          rw [output_fail _ _ _ _ _ _ hg2]; rfl
        · refine Or.inr (Or.inr (Or.inr (Or.inr (Or.inr (Or.inr (Or.inr (Or.inr (Or.inr (Or.inr (Or.inr (Or.inr (Or.inr (Or.inr (⟨m, dinfo, ⟨hf, hc, hm, h2, hi, hg2⟩, ?_⟩))))))))))))))
          rw [output_copy _ _ _ _ _ _ hg2]; rfl
  · by_cases hg : (env.get_buffer avctx.channels (direct_nb_samples avctx)).1 < 0
    · exact Or.inr (Or.inl (⟨[], dinfo, ⟨hf, hc, hg⟩, frame_direct_fail ec avctx avpkt env hf hc hg⟩))
    · rw [frame_direct ec avctx avpkt env hf hc hg]
      have hid : (direct_ctx avctx env).priv_data.initialized = avctx.priv_data.initialized := rfl
      by_cases h1 : (env.decode (direct_buf_size avctx)).1 = AAC_DECODER_ERROR.AAC_DEC_NOT_ENOUGH_BITS
      · refine Or.inr (Or.inr (Or.inr (Or.inl (⟨[], dinfo, ⟨hf, hc, hg, h1⟩, ?_⟩))))
        rw [decode_not_enough_bits _ _ _ _ _ _ _ _ h1]; rfl
      by_cases h2 : (env.decode (direct_buf_size avctx)).1 = AAC_DECODER_ERROR.AAC_DEC_OK
      swap
      · refine Or.inr (Or.inr (Or.inr (Or.inr (Or.inl (⟨[], dinfo, ⟨hf, hc, hg, h1, h2⟩, ?_⟩)))))
        rw [decode_failed _ _ _ _ _ _ _ _ h1 h2]; rfl
      by_cases hi : avctx.priv_data.initialized = 0
      · by_cases hr : resolvable env.stream_info = false
        · refine Or.inr (Or.inr (Or.inr (Or.inr (Or.inr (Or.inl (⟨[], dinfo, ⟨hf, hc, hg, h2, hi, hr⟩, ?_⟩))))))
          rw [decode_unresolved _ _ _ _ _ _ _ _ h2 (hid ▸ hi) hr]; rfl
        · obtain ⟨info, hs, hpos⟩ := resolvable_true _ hr
          refine Or.inr (Or.inr (Or.inr (Or.inr (Or.inr (Or.inr (Or.inl (⟨[], info, ⟨hf, hc, hg, h2, hi, hs, hpos⟩, ?_⟩)))))))
          rw [decode_resolves _ _ _ _ _ _ _ _ info h2 (hid ▸ hi) hs hpos]; rfl
      · refine Or.inr (Or.inr (Or.inr (Or.inr (Or.inr (Or.inr (Or.inr (Or.inl (⟨[], dinfo, ⟨hf, hc, hg, h2, hi⟩, ?_⟩))))))))
        rw [decode_resolved _ _ _ _ _ _ _ _ h2 (hid ▸ hi)]; rfl

/-- C1: when fill is accepted, leaving at most the packet unconsumed, and the
decode call reports AAC_DEC_NOT_ENOUGH_BITS, aac_decode_frame returns the
packet size minus the unconsumed count, stores nothing through got_frame_ptr
or data, and a scratch buffer allocated in the call has been freed once. -/
theorem aac_decode_frame_not_enough_bits (ec : ErrorCodes) (avctx : AVCodecContext)
    (avpkt : AVPacket) (env : DecodeEnv) (cap : Int)
    (h0 : 0 ≤ avpkt.size) (h1 : avpkt.size < 2147483648)
    (hrem : (env.fill_valid : Int) ≤ avpkt.size)
    (hfill : env.fill_err = AAC_DECODER_ERROR.AAC_DEC_OK)
    (hdec : Event.aacDecoder_DecodeFrame cap AAC_DECODER_ERROR.AAC_DEC_NOT_ENOUGH_BITS ∈
      (aac_decode_frame ec avctx avpkt env).trace) :
    (aac_decode_frame ec avctx avpkt env).ret = avpkt.size - env.fill_valid ∧
    (aac_decode_frame ec avctx avpkt env).got_frame = none ∧
    (aac_decode_frame ec avctx avpkt env).data = none ∧
    scratch_replay (aac_decode_frame ec avctx avpkt env).trace false = some false ∧
    scratch_frees (aac_decode_frame ec avctx avpkt env).trace
      = scratch_allocs (aac_decode_frame ec avctx avpkt env).trace := by
  have hw := (consumed_exact avpkt.size env.fill_valid h0 h1 hrem).1
  rcases frame_paths ec avctx avpkt env with
    h | h | h | h | h | h | h | h | h | h | h | h | h | h | h <;>
  obtain ⟨m, info, hcond, heq⟩ := h <;>
  rw [heq] at hdec ⊢ <;>
  simp_all [scratch_replay, scratch_frees, scratch_allocs]

/-- C1 at a concrete call: an unresolved session without channel count, a
packet of 10 bytes of which 3 stay unconsumed, and a decoder that wants more
bits. -/
theorem aac_decode_frame_not_enough_bits_witness :
    (aac_decode_frame posixErrorCodes (ctx_fresh 0 0) ⟨10⟩ env_more_bits).ret
      = (10 : Int) - (3 : Nat) ∧
    (aac_decode_frame posixErrorCodes (ctx_fresh 0 0) ⟨10⟩ env_more_bits).got_frame = none ∧
    (aac_decode_frame posixErrorCodes (ctx_fresh 0 0) ⟨10⟩ env_more_bits).data = none ∧
    scratch_replay (aac_decode_frame posixErrorCodes (ctx_fresh 0 0) ⟨10⟩ env_more_bits).trace false
      = some false ∧
    scratch_frees (aac_decode_frame posixErrorCodes (ctx_fresh 0 0) ⟨10⟩ env_more_bits).trace
      = scratch_allocs (aac_decode_frame posixErrorCodes (ctx_fresh 0 0) ⟨10⟩ env_more_bits).trace :=
  aac_decode_frame_not_enough_bits posixErrorCodes (ctx_fresh 0 0) ⟨10⟩
    env_more_bits 51200
    (by decide) (by decide) (by decide) rfl (by decide)

/-- C2, as stated, fails: the session is unresolved, the stream information is
not available, fill and decode both report success, and the call returns the
negative error -22 instead of a byte count between 0 and the packet size. -/
theorem aac_decode_frame_unresolved_returns_error :
    (ctx_fresh 0 0).priv_data.initialized = 0 ∧
    resolvable env_no_info.stream_info = false ∧
    env_no_info.fill_err
      = AAC_DECODER_ERROR.AAC_DEC_OK ∧
    Event.aacDecoder_DecodeFrame 51200 AAC_DECODER_ERROR.AAC_DEC_OK ∈
      (aac_decode_frame posixErrorCodes (ctx_fresh 0 0) ⟨10⟩ env_no_info).trace ∧
    (aac_decode_frame posixErrorCodes (ctx_fresh 0 0) ⟨10⟩ env_no_info).ret = -22 ∧
    ¬ (0 ≤ (aac_decode_frame posixErrorCodes (ctx_fresh 0 0) ⟨10⟩ env_no_info).ret) := by
  decide

/-- C2, amended: while the session is unresolved and the stream information is
not resolvable, a call produces no frame; it returns the packet size minus the
unconsumed count, a value between 0 and the packet size, when decode is reached
and reports AAC_DEC_NOT_ENOUGH_BITS, and a negative error code on every other
path; when decode reports success that code is AVERROR(EINVAL). -/
theorem aac_decode_frame_unresolved (ec : ErrorCodes) (avctx : AVCodecContext)
    (avpkt : AVPacket) (env : DecodeEnv)
    (h0 : 0 ≤ avpkt.size) (h1 : avpkt.size < 2147483648)
    (hrem : (env.fill_valid : Int) ≤ avpkt.size)
    (hi : avctx.priv_data.initialized = 0)
    (hr : resolvable env.stream_info = false) :
    (aac_decode_frame ec avctx avpkt env).got_frame = none ∧
    (aac_decode_frame ec avctx avpkt env).data = none ∧
    ((∃ cap, Event.aacDecoder_DecodeFrame cap AAC_DECODER_ERROR.AAC_DEC_NOT_ENOUGH_BITS ∈
        (aac_decode_frame ec avctx avpkt env).trace) →
      (aac_decode_frame ec avctx avpkt env).ret = avpkt.size - env.fill_valid ∧
      0 ≤ (aac_decode_frame ec avctx avpkt env).ret ∧
      (aac_decode_frame ec avctx avpkt env).ret ≤ avpkt.size) ∧
    ((¬ ∃ cap, Event.aacDecoder_DecodeFrame cap AAC_DECODER_ERROR.AAC_DEC_NOT_ENOUGH_BITS ∈
        (aac_decode_frame ec avctx avpkt env).trace) →
      (aac_decode_frame ec avctx avpkt env).ret < 0) ∧
    (∀ cap, Event.aacDecoder_DecodeFrame cap AAC_DECODER_ERROR.AAC_DEC_OK ∈
        (aac_decode_frame ec avctx avpkt env).trace →
      (aac_decode_frame ec avctx avpkt env).ret = ec.AVERROR_EINVAL) := by
  obtain ⟨hw, hw0, hw1⟩ := consumed_exact avpkt.size env.fill_valid h0 h1 hrem
  have e1 := ec.einval_neg
  have e2 := ec.enomem_neg
  have e3 := ec.invaliddata_neg
  rcases frame_paths ec avctx avpkt env with
    h | h | h | h | h | h | h | h | h | h | h | h | h | h | h <;>
  obtain ⟨m, info, hcond, heq⟩ := h <;>
  rw [heq] <;>
  simp_all [resolvable] <;>
  exact ⟨fun hx => absurd hx.symm (by tauto), fun hx => absurd hx.symm (by tauto)⟩

/-- The amended C2 at a concrete call: fill and decode succeed while no stream
information is available. -/
theorem aac_decode_frame_unresolved_witness :
    (aac_decode_frame posixErrorCodes (ctx_fresh 0 0) ⟨10⟩ env_no_info).got_frame = none ∧
    (aac_decode_frame posixErrorCodes (ctx_fresh 0 0) ⟨10⟩ env_no_info).data = none ∧
    ((∃ cap, Event.aacDecoder_DecodeFrame cap AAC_DECODER_ERROR.AAC_DEC_NOT_ENOUGH_BITS ∈
        (aac_decode_frame posixErrorCodes (ctx_fresh 0 0) ⟨10⟩ env_no_info).trace) →
      (aac_decode_frame posixErrorCodes (ctx_fresh 0 0) ⟨10⟩ env_no_info).ret
        = (10 : Int) - env_no_info.fill_valid ∧
      0 ≤ (aac_decode_frame posixErrorCodes (ctx_fresh 0 0) ⟨10⟩ env_no_info).ret ∧
      (aac_decode_frame posixErrorCodes (ctx_fresh 0 0) ⟨10⟩ env_no_info).ret ≤ 10) ∧
    ((¬ ∃ cap, Event.aacDecoder_DecodeFrame cap AAC_DECODER_ERROR.AAC_DEC_NOT_ENOUGH_BITS ∈
        (aac_decode_frame posixErrorCodes (ctx_fresh 0 0) ⟨10⟩ env_no_info).trace) →
      (aac_decode_frame posixErrorCodes (ctx_fresh 0 0) ⟨10⟩ env_no_info).ret < 0) ∧
    (∀ cap, Event.aacDecoder_DecodeFrame cap AAC_DECODER_ERROR.AAC_DEC_OK ∈
        (aac_decode_frame posixErrorCodes (ctx_fresh 0 0) ⟨10⟩ env_no_info).trace →
      (aac_decode_frame posixErrorCodes (ctx_fresh 0 0) ⟨10⟩ env_no_info).ret
        = posixErrorCodes.AVERROR_EINVAL) :=
  aac_decode_frame_unresolved posixErrorCodes (ctx_fresh 0 0) ⟨10⟩
    env_no_info
    (by decide) (by decide) (by decide) rfl rfl

/-! ## Sessions -/

/-- One call either leaves the initialized flag alone, or finds it 0, sets it
to 1 and has asked for the stream information and received it with a positive
sample rate. -/
lemma step_initialized (ec : ErrorCodes) (avctx : AVCodecContext) (avpkt : AVPacket)
    (env : DecodeEnv) :
    (aac_decode_frame ec avctx avpkt env).avctx.priv_data.initialized
        = avctx.priv_data.initialized ∨
      (avctx.priv_data.initialized = 0 ∧
        (aac_decode_frame ec avctx avpkt env).avctx.priv_data.initialized = 1 ∧
        ∃ info : CStreamInfo, 0 < info.sampleRate ∧
          Event.aacDecoder_GetStreamInfo (some info) ∈
            (aac_decode_frame ec avctx avpkt env).trace) := by
  rcases frame_paths ec avctx avpkt env with
    h | h | h | h | h | h | h | h | h | h | h | h | h | h | h <;>
  obtain ⟨m, info, hcond, heq⟩ := h <;>
  rw [heq] <;>
  first
  | (left; simp [direct_written, written_ctx, written_tmp, direct_ctx,
      scratch_out_ctx, scratch_request_ctx]; done)
  | (right
     refine ⟨by tauto, ?_, info, by tauto, ?_⟩ <;>
     simp [resolved_ctx, direct_written, written_ctx, written_tmp, direct_ctx,
      scratch_out_ctx, scratch_request_ctx])

/-- A call that reports a frame started from a resolved session or resolved
the session itself. -/
lemma step_got_frame (ec : ErrorCodes) (avctx : AVCodecContext) (avpkt : AVPacket)
    (env : DecodeEnv) (hg : (aac_decode_frame ec avctx avpkt env).got_frame = some 1) :
    avctx.priv_data.initialized ≠ 0 ∨
      ((aac_decode_frame ec avctx avpkt env).avctx.priv_data.initialized = 1 ∧
        ∃ info : CStreamInfo, 0 < info.sampleRate ∧
          Event.aacDecoder_GetStreamInfo (some info) ∈
            (aac_decode_frame ec avctx avpkt env).trace) := by
  rcases frame_paths ec avctx avpkt env with
    h | h | h | h | h | h | h | h | h | h | h | h | h | h | h <;>
  obtain ⟨m, info, hcond, heq⟩ := h <;>
  rw [heq] at hg ⊢ <;>
  first
  | (exfalso; simp at hg; done)
  | (left; tauto)
  | (right
     refine ⟨?_, info, by tauto, ?_⟩ <;>
     simp [resolved_ctx, direct_written, written_ctx, written_tmp, direct_ctx,
      scratch_out_ctx, scratch_request_ctx])

/-- A call on a resolved session asks for no stream information and keeps the
stream parameters and the initialized flag. -/
lemma step_resolved (ec : ErrorCodes) (avctx : AVCodecContext) (avpkt : AVPacket)
    (env : DecodeEnv) (hi : avctx.priv_data.initialized ≠ 0) :
    (aac_decode_frame ec avctx avpkt env).avctx.channels = avctx.channels ∧
    (aac_decode_frame ec avctx avpkt env).avctx.sample_rate = avctx.sample_rate ∧
    (aac_decode_frame ec avctx avpkt env).avctx.frame_size = avctx.frame_size ∧
    (aac_decode_frame ec avctx avpkt env).avctx.priv_data.initialized
      = avctx.priv_data.initialized ∧
    ∀ info, Event.aacDecoder_GetStreamInfo info ∉
      (aac_decode_frame ec avctx avpkt env).trace := by
  rcases frame_paths ec avctx avpkt env with
    h | h | h | h | h | h | h | h | h | h | h | h | h | h | h <;>
  obtain ⟨m, info, hcond, heq⟩ := h <;>
  rw [heq] <;>
  first
  | (exfalso; tauto)
  | simp [direct_written, written_ctx, written_tmp, direct_ctx,
      scratch_out_ctx, scratch_request_ctx]

/-- Along a session the initialized flag stays 0 or 1, and when it is 1 at the
end either it was 1 at the start or some call of the session received stream
information with a positive sample rate. -/
lemma session_initialized (ec : ErrorCodes) (inputs : List (AVPacket × DecodeEnv)) :
    ∀ avctx : AVCodecContext,
      (avctx.priv_data.initialized = 0 ∨ avctx.priv_data.initialized = 1) →
      ((session_state ec avctx inputs).priv_data.initialized = 0 ∨
        (session_state ec avctx inputs).priv_data.initialized = 1) ∧
      ((session_state ec avctx inputs).priv_data.initialized = 1 →
        avctx.priv_data.initialized = 1 ∨
        ∃ info : CStreamInfo, 0 < info.sampleRate ∧
          ∃ r ∈ session_results ec avctx inputs,
            Event.aacDecoder_GetStreamInfo (some info) ∈ r.trace) := by
  induction inputs with
  | nil =>
    intro avctx h
    exact ⟨h, fun h1 => Or.inl h1⟩
  | cons pe rest ih =>
    intro avctx h
    obtain ⟨p, e⟩ := pe
    have hstep := step_initialized ec avctx p e
    have h01 : (aac_decode_frame ec avctx p e).avctx.priv_data.initialized = 0 ∨
        (aac_decode_frame ec avctx p e).avctx.priv_data.initialized = 1 := by
      rcases hstep with hs | ⟨_, hs, _⟩
      · rw [hs]; exact h
      · exact Or.inr hs
    obtain ⟨ih1, ih2⟩ := ih (aac_decode_frame ec avctx p e).avctx h01
    refine ⟨ih1, fun hfin => ?_⟩
    rcases ih2 hfin with hmid | ⟨info, hpos, r, hr, hmem⟩
    · rcases hstep with hs | ⟨_, _, info, hpos, hmem⟩
      · left; rw [← hs]; exact hmid
      · right
        exact ⟨info, hpos, aac_decode_frame ec avctx p e, List.mem_cons_self _ _, hmem⟩
    · right
      exact ⟨info, hpos, r, List.mem_cons_of_mem _ hr, hmem⟩

/-- C3: in a session that starts with initialized = 0, whenever a call stores 1
through got_frame_ptr the initialized flag is 1 on return, and a stream
information query answered with a positive sample rate was made in this call
or in an earlier call of the session. -/
theorem session_frame_only_when_resolved (ec : ErrorCodes) (avctx : AVCodecContext)
    (inputs : List (AVPacket × DecodeEnv)) (avpkt : AVPacket) (env : DecodeEnv)
    (hfresh : avctx.priv_data.initialized = 0)
    (hgot : (aac_decode_frame ec (session_state ec avctx inputs) avpkt env).got_frame
      = some 1) :
    (aac_decode_frame ec (session_state ec avctx inputs) avpkt env).avctx.priv_data.initialized
      = 1 ∧
    ∃ info : CStreamInfo, 0 < info.sampleRate ∧
      (Event.aacDecoder_GetStreamInfo (some info) ∈
          (aac_decode_frame ec (session_state ec avctx inputs) avpkt env).trace ∨
        ∃ r ∈ session_results ec avctx inputs,
          Event.aacDecoder_GetStreamInfo (some info) ∈ r.trace) := by
  obtain ⟨h01, hres⟩ := session_initialized ec inputs avctx (Or.inl hfresh)
  rcases step_got_frame ec (session_state ec avctx inputs) avpkt env hgot with
    hne | ⟨h1, info, hpos, hmem⟩
  · have hone : (session_state ec avctx inputs).priv_data.initialized = 1 := by
      rcases h01 with h | h
      · exact absurd h hne
      · exact h
    have hkeep := (step_resolved ec (session_state ec avctx inputs) avpkt env hne).2.2.2.1
    refine ⟨by rw [hkeep]; exact hone, ?_⟩
    rcases hres hone with h | ⟨info, hpos, r, hr, hmem⟩
    · rw [hfresh] at h
      exact absurd h (by decide)
    · exact ⟨info, hpos, Or.inr ⟨r, hr, hmem⟩⟩
  · exact ⟨h1, info, hpos, Or.inl hmem⟩

/-- C3 on a concrete session: a first packet for which the decoder wants more
bits, then a packet that decodes and resolves the stream. -/
theorem session_frame_only_when_resolved_witness :
    (aac_decode_frame posixErrorCodes
        (session_state posixErrorCodes (ctx_fresh 0 0)
          [(⟨10⟩, env_of 3 0 AAC_DECODER_ERROR.AAC_DEC_NOT_ENOUGH_BITS [] none)])
        ⟨12⟩ (env_of 0 0 AAC_DECODER_ERROR.AAC_DEC_OK [1, 2, 3, 4]
          (some ⟨44100, 2, 1⟩))).avctx.priv_data.initialized = 1 ∧
    ∃ info : CStreamInfo, 0 < info.sampleRate ∧
      (Event.aacDecoder_GetStreamInfo (some info) ∈
          (aac_decode_frame posixErrorCodes
            (session_state posixErrorCodes (ctx_fresh 0 0)
              [(⟨10⟩, env_of 3 0 AAC_DECODER_ERROR.AAC_DEC_NOT_ENOUGH_BITS [] none)])
            ⟨12⟩ (env_of 0 0 AAC_DECODER_ERROR.AAC_DEC_OK [1, 2, 3, 4]
              (some ⟨44100, 2, 1⟩))).trace ∨
        ∃ r ∈ session_results posixErrorCodes (ctx_fresh 0 0)
            [(⟨10⟩, env_of 3 0 AAC_DECODER_ERROR.AAC_DEC_NOT_ENOUGH_BITS [] none)],
          Event.aacDecoder_GetStreamInfo (some info) ∈ r.trace) :=
  session_frame_only_when_resolved posixErrorCodes (ctx_fresh 0 0)
    [(⟨10⟩, env_of 3 0 AAC_DECODER_ERROR.AAC_DEC_NOT_ENOUGH_BITS [] none)]
    ⟨12⟩ (env_of 0 0 AAC_DECODER_ERROR.AAC_DEC_OK [1, 2, 3, 4] (some ⟨44100, 2, 1⟩))
    rfl (by decide)

/-- C4: from a resolved session (initialized = 1) on, whatever the black boxes
answer, every sequence of calls leaves channels, sample_rate and frame_size as
they were and initialized at 1, and no call asks for the stream information
again. -/
theorem session_parameters_stable (ec : ErrorCodes) (avctx : AVCodecContext)
    (inputs : List (AVPacket × DecodeEnv))
    (hres : avctx.priv_data.initialized = 1) :
    (session_state ec avctx inputs).channels = avctx.channels ∧
    (session_state ec avctx inputs).sample_rate = avctx.sample_rate ∧
    (session_state ec avctx inputs).frame_size = avctx.frame_size ∧
    (session_state ec avctx inputs).priv_data.initialized = 1 ∧
    ∀ r ∈ session_results ec avctx inputs, ∀ info,
      Event.aacDecoder_GetStreamInfo info ∉ r.trace := by
  induction inputs generalizing avctx with
  | nil =>
    exact ⟨rfl, rfl, rfl, hres, fun r hr => absurd hr (List.not_mem_nil r)⟩
  | cons pe rest ih =>
    obtain ⟨p, e⟩ := pe
    have hne : avctx.priv_data.initialized ≠ 0 := by rw [hres]; decide
    obtain ⟨s1, s2, s3, s4, s5⟩ := step_resolved ec avctx p e hne
    obtain ⟨i1, i2, i3, i4, i5⟩ := ih (aac_decode_frame ec avctx p e).avctx (by rw [s4]; exact hres)
    refine ⟨?_, ?_, ?_, ?_, ?_⟩
    · show (session_state ec (aac_decode_frame ec avctx p e).avctx rest).channels = _
      rw [i1, s1]
    · show (session_state ec (aac_decode_frame ec avctx p e).avctx rest).sample_rate = _
      rw [i2, s2]
    · show (session_state ec (aac_decode_frame ec avctx p e).avctx rest).frame_size = _
      rw [i3, s3]
    · exact i4
    · intro r hr
      rcases List.mem_cons.mp hr with h | h
      · rw [h]; exact s5
      · exact i5 r h

/-- C4 on a concrete resolved session fed one packet that decodes, while the
decoder would now report other stream parameters. -/
theorem session_parameters_stable_witness :
    (session_state posixErrorCodes (ctx_resolved 2 44100 1024)
        [(⟨10⟩, env_of 3 0 AAC_DECODER_ERROR.AAC_DEC_OK [] (some ⟨48000, 2048, 6⟩))]).channels
      = (ctx_resolved 2 44100 1024).channels ∧
    (session_state posixErrorCodes (ctx_resolved 2 44100 1024)
        [(⟨10⟩, env_of 3 0 AAC_DECODER_ERROR.AAC_DEC_OK [] (some ⟨48000, 2048, 6⟩))]).sample_rate
      = (ctx_resolved 2 44100 1024).sample_rate ∧
    (session_state posixErrorCodes (ctx_resolved 2 44100 1024)
        [(⟨10⟩, env_of 3 0 AAC_DECODER_ERROR.AAC_DEC_OK [] (some ⟨48000, 2048, 6⟩))]).frame_size
      = (ctx_resolved 2 44100 1024).frame_size ∧
    (session_state posixErrorCodes (ctx_resolved 2 44100 1024)
        [(⟨10⟩, env_of 3 0 AAC_DECODER_ERROR.AAC_DEC_OK [] (some ⟨48000, 2048, 6⟩))]
      ).priv_data.initialized = 1 ∧
    ∀ r ∈ session_results posixErrorCodes (ctx_resolved 2 44100 1024)
        [(⟨10⟩, env_of 3 0 AAC_DECODER_ERROR.AAC_DEC_OK [] (some ⟨48000, 2048, 6⟩))],
      ∀ info, Event.aacDecoder_GetStreamInfo info ∉ r.trace :=
  session_parameters_stable posixErrorCodes (ctx_resolved 2 44100 1024)
    [(⟨10⟩, env_of 3 0 AAC_DECODER_ERROR.AAC_DEC_OK [] (some ⟨48000, 2048, 6⟩))] rfl

/-! ## Buffers -/

lemma pcm_write_length (buf : List Byte) (cap : Int) (d : List Byte) :
    (pcm_write buf cap d).length = buf.length := by
  unfold pcm_write
  simp only [List.length_append, List.length_take, List.length_drop]
  omega

lemma memcpy_length (dst src : List Byte) (n : Nat) :
    (memcpy dst src n).length = dst.length := by
  unfold memcpy
  simp only [List.length_append, List.length_take, List.length_drop]
  omega

/-- Samples that fit the capacity and the buffer are found at its start. -/
lemma pcm_write_take (buf : List Byte) (cap : Int) (d : List Byte) (n : Nat)
    (hcap : (d.length : Int) ≤ cap) (hbuf : cap ≤ (buf.length : Int))
    (hn : n ≤ d.length) :
    (pcm_write buf cap d).take n = d.take n := by
  unfold pcm_write
  have h1 : d.length ≤ min cap.toNat buf.length := by
    apply le_min
    · omega
    · omega
  rw [List.take_of_length_le h1, List.take_append_of_le_length hn]

/-- A copy that stays inside both buffers puts the source at the start of the
destination. -/
lemma memcpy_take (dst src : List Byte) (n k : Nat) (hs : n ≤ src.length)
    (hd : n ≤ dst.length) (hk : k ≤ n) :
    (memcpy dst src n).take k = src.take k := by
  unfold memcpy
  have h1 : min n (min src.length dst.length) = n := by omega
  rw [h1, List.take_append_of_le_length (by rw [List.length_take]; omega),
    List.take_take, min_eq_left hk]

/-- C5, as stated, fails: channels was set to 2 before the session was
resolved; the call reports a frame with nb_samples = frame_size = 1024, but the
only buffer request of the call was made for 2048 samples per channel. -/
theorem aac_decode_frame_preset_channels_buffer :
    (aac_decode_frame posixErrorCodes (ctx_fresh 2 0) ⟨10⟩
        (env_of 3 0 AAC_DECODER_ERROR.AAC_DEC_OK [1, 2, 3, 4]
          (some ⟨44100, 1024, 2⟩))).got_frame = some 1 ∧
    (aac_decode_frame posixErrorCodes (ctx_fresh 2 0) ⟨10⟩
        (env_of 3 0 AAC_DECODER_ERROR.AAC_DEC_OK [1, 2, 3, 4]
          (some ⟨44100, 1024, 2⟩))).avctx.channels = 2 ∧
    (aac_decode_frame posixErrorCodes (ctx_fresh 2 0) ⟨10⟩
        (env_of 3 0 AAC_DECODER_ERROR.AAC_DEC_OK [1, 2, 3, 4]
          (some ⟨44100, 1024, 2⟩))).avctx.frame_size = 1024 ∧
    (aac_decode_frame posixErrorCodes (ctx_fresh 2 0) ⟨10⟩
        (env_of 3 0 AAC_DECODER_ERROR.AAC_DEC_OK [1, 2, 3, 4]
          (some ⟨44100, 1024, 2⟩))).avctx.priv_data.frame.nb_samples = 1024 ∧
    get_buffer_requests (aac_decode_frame posixErrorCodes (ctx_fresh 2 0) ⟨10⟩
        (env_of 3 0 AAC_DECODER_ERROR.AAC_DEC_OK [1, 2, 3, 4]
          (some ⟨44100, 1024, 2⟩))).trace = [(2, 2048, 0)] ∧
    get_buffer_requests (aac_decode_frame posixErrorCodes (ctx_fresh 2 0) ⟨10⟩
        (env_of 3 0 AAC_DECODER_ERROR.AAC_DEC_OK [1, 2, 3, 4]
          (some ⟨44100, 1024, 2⟩))).trace ≠ [(2, 1024, 0)] := by
  decide

/-- C5, amended: a call that reports a frame hands over the private frame with
nb_samples equal to the frame_size at return, and makes exactly one buffer
request, which succeeded and whose memory is the frame buffer.  When channels
was 0 on entry or the session was already resolved, the request was made for
the channels and frame_size at return; when channels was set on entry and the
session was not yet resolved, it was made for the channels on entry and 2048
samples. -/
theorem aac_decode_frame_buffer_request (ec : ErrorCodes) (avctx : AVCodecContext)
    (avpkt : AVPacket) (env : DecodeEnv)
    (hgot : (aac_decode_frame ec avctx avpkt env).got_frame = some 1) :
    (aac_decode_frame ec avctx avpkt env).data
      = some (aac_decode_frame ec avctx avpkt env).avctx.priv_data.frame ∧
    (aac_decode_frame ec avctx avpkt env).avctx.priv_data.frame.nb_samples
      = (aac_decode_frame ec avctx avpkt env).avctx.frame_size ∧
    ((avctx.channels = 0 ∨ avctx.priv_data.initialized ≠ 0) →
      get_buffer_requests (aac_decode_frame ec avctx avpkt env).trace =
        [((aac_decode_frame ec avctx avpkt env).avctx.channels,
          (aac_decode_frame ec avctx avpkt env).avctx.frame_size,
          (env.get_buffer (aac_decode_frame ec avctx avpkt env).avctx.channels
            (aac_decode_frame ec avctx avpkt env).avctx.frame_size).1)] ∧
      ¬ (env.get_buffer (aac_decode_frame ec avctx avpkt env).avctx.channels
            (aac_decode_frame ec avctx avpkt env).avctx.frame_size).1 < 0 ∧
      (aac_decode_frame ec avctx avpkt env).avctx.priv_data.frame.data0.length =
        (env.get_buffer (aac_decode_frame ec avctx avpkt env).avctx.channels
            (aac_decode_frame ec avctx avpkt env).avctx.frame_size).2.length) ∧
    ((avctx.channels ≠ 0 ∧ avctx.priv_data.initialized = 0) →
      get_buffer_requests (aac_decode_frame ec avctx avpkt env).trace =
        [(avctx.channels, 2048, (env.get_buffer avctx.channels 2048).1)] ∧
      ¬ (env.get_buffer avctx.channels 2048).1 < 0 ∧
      (aac_decode_frame ec avctx avpkt env).avctx.priv_data.frame.data0.length =
        (env.get_buffer avctx.channels 2048).2.length) := by
  rcases frame_paths ec avctx avpkt env with
    h | h | h | h | h | h | h | h | h | h | h | h | h | h | h <;>
  obtain ⟨m, info, hcond, heq⟩ := h <;>
  rw [heq] at hgot ⊢ <;>
  first
  | (exfalso; simp at hgot; done)
  | (obtain ⟨hf, hc, h3, he, hi, hrest⟩ := hcond
     try simp only [direct_nb_samples] at h3
     simp_all [get_buffer_requests, resolved_ctx, direct_written, written_ctx,
       written_tmp, direct_ctx, direct_nb_samples, scratch_out_ctx, pcm_write_length,
       memcpy_length])
  | (obtain ⟨hf, hc, h3, he, hi⟩ := hcond
     try simp only [direct_nb_samples] at h3
     simp_all [get_buffer_requests, resolved_ctx, direct_written, written_ctx,
       written_tmp, direct_ctx, direct_nb_samples, scratch_out_ctx, pcm_write_length,
       memcpy_length])

/-- The amended C5 at a concrete call of the scratch path: one channel, frame
size 2. -/
theorem aac_decode_frame_buffer_request_witness :
    (aac_decode_frame posixErrorCodes (ctx_fresh 0 0) ⟨10⟩ env_decoded).data
      = some (aac_decode_frame posixErrorCodes (ctx_fresh 0 0) ⟨10⟩ env_decoded).avctx.priv_data.frame ∧
    (aac_decode_frame posixErrorCodes (ctx_fresh 0 0) ⟨10⟩ env_decoded).avctx.priv_data.frame.nb_samples
      = (aac_decode_frame posixErrorCodes (ctx_fresh 0 0) ⟨10⟩ env_decoded).avctx.frame_size ∧
    (((ctx_fresh 0 0).channels = 0 ∨ (ctx_fresh 0 0).priv_data.initialized ≠ 0) →
      get_buffer_requests (aac_decode_frame posixErrorCodes (ctx_fresh 0 0) ⟨10⟩ env_decoded).trace =
        [((aac_decode_frame posixErrorCodes (ctx_fresh 0 0) ⟨10⟩ env_decoded).avctx.channels,
          (aac_decode_frame posixErrorCodes (ctx_fresh 0 0) ⟨10⟩ env_decoded).avctx.frame_size,
          (env_decoded.get_buffer (aac_decode_frame posixErrorCodes (ctx_fresh 0 0) ⟨10⟩ env_decoded).avctx.channels
            (aac_decode_frame posixErrorCodes (ctx_fresh 0 0) ⟨10⟩ env_decoded).avctx.frame_size).1)] ∧
      ¬ (env_decoded.get_buffer (aac_decode_frame posixErrorCodes (ctx_fresh 0 0) ⟨10⟩ env_decoded).avctx.channels
            (aac_decode_frame posixErrorCodes (ctx_fresh 0 0) ⟨10⟩ env_decoded).avctx.frame_size).1 < 0 ∧
      (aac_decode_frame posixErrorCodes (ctx_fresh 0 0) ⟨10⟩ env_decoded).avctx.priv_data.frame.data0.length =
        (env_decoded.get_buffer (aac_decode_frame posixErrorCodes (ctx_fresh 0 0) ⟨10⟩ env_decoded).avctx.channels
            (aac_decode_frame posixErrorCodes (ctx_fresh 0 0) ⟨10⟩ env_decoded).avctx.frame_size).2.length) ∧
    (((ctx_fresh 0 0).channels ≠ 0 ∧ (ctx_fresh 0 0).priv_data.initialized = 0) →
      get_buffer_requests (aac_decode_frame posixErrorCodes (ctx_fresh 0 0) ⟨10⟩ env_decoded).trace =
        [((ctx_fresh 0 0).channels, 2048, (env_decoded.get_buffer (ctx_fresh 0 0).channels 2048).1)] ∧
      ¬ (env_decoded.get_buffer (ctx_fresh 0 0).channels 2048).1 < 0 ∧
      (aac_decode_frame posixErrorCodes (ctx_fresh 0 0) ⟨10⟩ env_decoded).avctx.priv_data.frame.data0.length =
        (env_decoded.get_buffer (ctx_fresh 0 0).channels 2048).2.length) :=
  aac_decode_frame_buffer_request posixErrorCodes (ctx_fresh 0 0) ⟨10⟩
    env_decoded (by decide)

lemma toSizeT_of_range (x : Int) (h0 : 0 ≤ x) (h1 : x < 2147483648) :
    toSizeT x = x.toNat := by
  unfold toSizeT
  rw [Int.emod_eq_of_lt h0 (by omega)]

/-- The scratch path: samples written to the scratch memory and copied from
there are found at the start of the output buffer. -/
lemma scratch_copy_take (m gb d : List Byte) (x : Int) (hx : x ≤ (d.length : Int))
    (hd : d.length ≤ 51200) (hm : 51200 ≤ m.length)
    (hgb : wrapInt32 x ≤ (gb.length : Int)) :
    (memcpy gb (pcm_write m 51200 d) (toSizeT (wrapInt32 x))).take x.toNat
      = d.take x.toNat := by
  by_cases hpos : x ≤ 0
  · have hz : x.toNat = 0 := by omega
    rw [hz, List.take_zero, List.take_zero]
  · have hw : wrapInt32 x = x := wrapInt32_of_range x (by omega) (by omega)
    rw [hw] at hgb ⊢
    rw [toSizeT_of_range x (by omega) (by omega)]
    rw [memcpy_take gb (pcm_write m 51200 d) x.toNat x.toNat
      (by rw [pcm_write_length]; omega) (by omega) (le_refl _)]
    exact pcm_write_take m 51200 d x.toNat (by omega) (by omega) (by omega)

/-- The direct path: samples written to the output buffer are found at its
start. -/
lemma direct_write_take (gb d : List Byte) (cap x : Int) (hx : x ≤ (d.length : Int))
    (hcap : (d.length : Int) ≤ cap) (hgb : cap ≤ (gb.length : Int)) :
    (pcm_write gb cap d).take x.toNat = d.take x.toNat :=
  pcm_write_take gb cap d x.toNat hcap hgb (by omega)

/-- The frame of a successful call of the scratch path starts with the decoded
samples. -/
lemma scratch_frame_start (ec : ErrorCodes) (avctx : AVCodecContext) (avpkt : AVPacket)
    (env : DecodeEnv) (d : List Byte)
    (hc : avctx.channels = 0)
    (hgot : (aac_decode_frame ec avctx avpkt env).got_frame = some 1)
    (hd : ∀ cap, (env.decode cap).2 = d)
    (hfull : 2 * (aac_decode_frame ec avctx avpkt env).avctx.channels *
      (aac_decode_frame ec avctx avpkt env).avctx.frame_size ≤ (d.length : Int))
    (hfit : d.length ≤ 51200)
    (hmal : ∀ m, env.av_malloc = some m → 51200 ≤ m.length)
    (hhost : ∀ c n, wrapInt32 (2 * c * n) ≤ ((env.get_buffer c n).2.length : Int)) :
    ∃ f : AVFrame, (aac_decode_frame ec avctx avpkt env).data = some f ∧
      f.data0.take (2 * (aac_decode_frame ec avctx avpkt env).avctx.channels *
          (aac_decode_frame ec avctx avpkt env).avctx.frame_size).toNat
        = d.take (2 * (aac_decode_frame ec avctx avpkt env).avctx.channels *
          (aac_decode_frame ec avctx avpkt env).avctx.frame_size).toNat := by
  rcases frame_paths ec avctx avpkt env with
    h | h | h | h | h | h | h | h | h | h | h | h | h | h | h <;>
  obtain ⟨m, info, hcond, heq⟩ := h <;>
  rw [heq] at hgot hfull ⊢ <;>
  first
  | (exfalso; simp at hgot; done)
  | (exfalso; exact hcond.2.1 hc)
  | (refine ⟨_, rfl, ?_⟩
     have hm := hmal m hcond.2.2.1
     simp only [scratch_out_ctx, scratch_written, resolved_ctx, hd] at hfull ⊢
     exact scratch_copy_take m _ d _ hfull hfit hm (hhost _ _))

/-- The frame of a successful call of the direct path starts with the decoded
samples. -/
lemma direct_frame_start (ec : ErrorCodes) (avctx : AVCodecContext) (avpkt : AVPacket)
    (env : DecodeEnv) (d : List Byte)
    (hc : avctx.channels ≠ 0)
    (hgot : (aac_decode_frame ec avctx avpkt env).got_frame = some 1)
    (hd : ∀ cap, (env.decode cap).2 = d)
    (hfull : 2 * (aac_decode_frame ec avctx avpkt env).avctx.channels *
      (aac_decode_frame ec avctx avpkt env).avctx.frame_size ≤ (d.length : Int))
    (hfit : (d.length : Int) ≤ direct_buf_size avctx)
    (hhost : ∀ c n, wrapInt32 (2 * c * n) ≤ ((env.get_buffer c n).2.length : Int)) :
    ∃ f : AVFrame, (aac_decode_frame ec avctx avpkt env).data = some f ∧
      f.data0.take (2 * (aac_decode_frame ec avctx avpkt env).avctx.channels *
          (aac_decode_frame ec avctx avpkt env).avctx.frame_size).toNat
        = d.take (2 * (aac_decode_frame ec avctx avpkt env).avctx.channels *
          (aac_decode_frame ec avctx avpkt env).avctx.frame_size).toNat := by
  have hbuf : direct_buf_size avctx ≤
      (((env.get_buffer avctx.channels (direct_nb_samples avctx)).2).length : Int) :=
    hhost _ _
  rcases frame_paths ec avctx avpkt env with
    h | h | h | h | h | h | h | h | h | h | h | h | h | h | h <;>
  obtain ⟨m, info, hcond, heq⟩ := h <;>
  rw [heq] at hgot hfull ⊢ <;>
  first
  | (exfalso; simp at hgot; done)
  | (exfalso; exact hc hcond.2.1)
  | (refine ⟨_, rfl, ?_⟩
     simp only [direct_written, written_ctx, written_tmp, direct_ctx, resolved_ctx, hd,
       Option.map] at hfull ⊢
     exact direct_write_take _ d _ _ hfull hfit hbuf)

/-- C6: with a decoder that writes the same samples d into whatever buffer it
is given, a successful call of the scratch path (channels 0 on entry) and a
successful call of the direct path (channels set on entry) that both end with
channels C and frame size F hand over frames whose first 2*C*F bytes are the
first 2*C*F bytes of d, hence equal.  The black boxes keep their contracts: d
holds at least the 2*C*F bytes of the frame and fits the capacity passed to the
decoder on either path (51200, and buf_size of line 118), the scratch
allocation holds the 51200 bytes asked for, and get_buffer hands out at least
the bytes the wrapper computes for the request. -/
theorem scratch_and_direct_frames_agree (ec : ErrorCodes) (st_s st_d : AVCodecContext)
    (pkt_s pkt_d : AVPacket) (env : DecodeEnv) (d : List Byte) (C F : Int)
    (hs0 : st_s.channels = 0) (hd0 : st_d.channels ≠ 0)
    (hgs : (aac_decode_frame ec st_s pkt_s env).got_frame = some 1)
    (hgd : (aac_decode_frame ec st_d pkt_d env).got_frame = some 1)
    (hCs : (aac_decode_frame ec st_s pkt_s env).avctx.channels = C)
    (hFs : (aac_decode_frame ec st_s pkt_s env).avctx.frame_size = F)
    (hCd : (aac_decode_frame ec st_d pkt_d env).avctx.channels = C)
    (hFd : (aac_decode_frame ec st_d pkt_d env).avctx.frame_size = F)
    (hd : ∀ cap, (env.decode cap).2 = d)
    (hfull : 2 * C * F ≤ (d.length : Int))
    (hfit_s : d.length ≤ 51200)
    (hfit_d : (d.length : Int) ≤ direct_buf_size st_d)
    (hmal : ∀ m, env.av_malloc = some m → 51200 ≤ m.length)
    (hhost : ∀ c n, wrapInt32 (2 * c * n) ≤ ((env.get_buffer c n).2.length : Int)) :
    ∃ fs fd : AVFrame,
      (aac_decode_frame ec st_s pkt_s env).data = some fs ∧
      (aac_decode_frame ec st_d pkt_d env).data = some fd ∧
      fs.data0.take (2 * C * F).toNat = d.take (2 * C * F).toNat ∧
      fd.data0.take (2 * C * F).toNat = d.take (2 * C * F).toNat ∧
      fs.data0.take (2 * C * F).toNat = fd.data0.take (2 * C * F).toNat := by
  obtain ⟨fs, hfs, hts⟩ := scratch_frame_start ec st_s pkt_s env d hs0 hgs hd
    (by rw [hCs, hFs]; exact hfull) hfit_s hmal hhost
  obtain ⟨fd, hfd, htd⟩ := direct_frame_start ec st_d pkt_d env d hd0 hgd hd
    (by rw [hCd, hFd]; exact hfull) hfit_d hhost
  rw [hCs, hFs] at hts
  rw [hCd, hFd] at htd
  exact ⟨fs, fd, hfs, hfd, hts, htd, hts.trans htd.symm⟩

/-- C6 at a concrete pair of calls: one channel, frame size 2, and the four
sample bytes 1, 2, 3, 4; the scratch path starts from an unresolved context,
the direct path from a resolved one. -/
theorem scratch_and_direct_frames_agree_witness :
    ∃ fs fd : AVFrame,
      (aac_decode_frame posixErrorCodes (ctx_fresh 0 0) ⟨10⟩ env_decoded).data
        = some fs ∧
      (aac_decode_frame posixErrorCodes (ctx_resolved 1 44100 2) ⟨10⟩ env_decoded).data
        = some fd ∧
      fs.data0.take (2 * 1 * 2 : Int).toNat = [1, 2, 3, 4].take (2 * 1 * 2 : Int).toNat ∧
      fd.data0.take (2 * 1 * 2 : Int).toNat = [1, 2, 3, 4].take (2 * 1 * 2 : Int).toNat ∧
      fs.data0.take (2 * 1 * 2 : Int).toNat = fd.data0.take (2 * 1 * 2 : Int).toNat :=
  scratch_and_direct_frames_agree posixErrorCodes (ctx_fresh 0 0) (ctx_resolved 1 44100 2)
    ⟨10⟩ ⟨10⟩ env_decoded
    [1, 2, 3, 4] 1 2
    rfl (by decide) (by decide) (by decide) (by decide) (by decide) (by decide) (by decide)
    (fun _ => rfl) (by decide) (by decide) (by decide)
    (fun m hm => by
      have h : m = List.replicate 51200 0 := (Option.some.inj hm).symm
      rw [h, List.length_replicate])
    (fun c n => by
      show wrapInt32 (2 * c * n) ≤
        ((List.replicate (wrapInt32 (2 * c * n)).toNat (0 : Byte)).length : Int)
      rw [List.length_replicate]
      exact Int.self_le_toNat _)

/-! ## The scratch buffer -/

/-- C9 fails on the code: channels is 0, the scratch buffer is allocated,
decode succeeds and the stream is resolved, and the get_buffer request for the
output buffer fails with -1.  The call returns -1 without a call of av_free:
one allocation, no release, the scratch buffer is still live at return. -/
theorem aac_decode_frame_scratch_leak :
    (aac_decode_frame posixErrorCodes (ctx_fresh 0 0) ⟨10⟩ env_no_buffer).ret = -1 ∧
    (aac_decode_frame posixErrorCodes (ctx_fresh 0 0) ⟨10⟩ env_no_buffer).trace =
      [Event.aacDecoder_Fill 10 10 AAC_DECODER_ERROR.AAC_DEC_OK 3,
       Event.av_malloc 51200 true,
       Event.aacDecoder_DecodeFrame 51200 AAC_DECODER_ERROR.AAC_DEC_OK,
       Event.aacDecoder_GetStreamInfo (some ⟨44100, 2, 1⟩),
       Event.get_buffer 1 2 (-1)] ∧
    scratch_allocs (aac_decode_frame posixErrorCodes (ctx_fresh 0 0) ⟨10⟩ env_no_buffer).trace = 1 ∧
    scratch_frees (aac_decode_frame posixErrorCodes (ctx_fresh 0 0) ⟨10⟩ env_no_buffer).trace = 0 ∧
    scratch_replay (aac_decode_frame posixErrorCodes (ctx_fresh 0 0) ⟨10⟩ env_no_buffer).trace false = some true := by
  decide

/-- On every exit path but one the scratch buffer is not live at return and
every allocation is matched by one release; the exception is the failed
get_buffer request of the scratch path (lines 148-151), where the call ends
with that request and the buffer is still live. -/
lemma scratch_freed_unless_output_request_fails (ec : ErrorCodes) (avctx : AVCodecContext)
    (avpkt : AVPacket) (env : DecodeEnv) :
    (scratch_replay (aac_decode_frame ec avctx avpkt env).trace false = some false ∧
      scratch_frees (aac_decode_frame ec avctx avpkt env).trace
        = scratch_allocs (aac_decode_frame ec avctx avpkt env).trace) ∨
    (scratch_replay (aac_decode_frame ec avctx avpkt env).trace false = some true ∧
      avctx.channels = 0 ∧
      (aac_decode_frame ec avctx avpkt env).ret < 0 ∧
      ∃ c n, (aac_decode_frame ec avctx avpkt env).trace.getLast?
        = some (Event.get_buffer c n (aac_decode_frame ec avctx avpkt env).ret)) := by
  rcases frame_paths ec avctx avpkt env with
    h | h | h | h | h | h | h | h | h | h | h | h | h | h | h <;>
  obtain ⟨m, info, hcond, heq⟩ := h <;>
  rw [heq] <;>
  first
  | (left; simp [scratch_replay, scratch_frees, scratch_allocs]; done)
  | (right
     refine ⟨by simp [scratch_replay], hcond.2.1, by tauto, ?_⟩
     exact ⟨_, _, rfl⟩)

/-! ## Buffer selection -/

/-- C10, as stated, fails: in a resolved session with 2 channels and frame size
1024 the output buffer is requested for 1024 samples per channel, not for
max(2048, 1024) = 2048, and the capacity passed to decode is 4096, not 8192. -/
theorem aac_decode_frame_resolved_request :
    env_no_info.fill_err
      = AAC_DECODER_ERROR.AAC_DEC_OK ∧
    (ctx_resolved 2 44100 1024).channels ≠ 0 ∧
    max 2048 (ctx_resolved 2 44100 1024).frame_size = 2048 ∧
    (aac_decode_frame posixErrorCodes (ctx_resolved 2 44100 1024) ⟨10⟩ env_no_info).trace =
      [Event.aacDecoder_Fill 10 10 AAC_DECODER_ERROR.AAC_DEC_OK 3,
       Event.get_buffer 2 1024 0,
       Event.aacDecoder_DecodeFrame 4096 AAC_DECODER_ERROR.AAC_DEC_OK,
       Event.av_free false] ∧
    get_buffer_requests (aac_decode_frame posixErrorCodes (ctx_resolved 2 44100 1024) ⟨10⟩ env_no_info).trace
      ≠ [(2, max 2048 (ctx_resolved 2 44100 1024).frame_size, 0)] := by
  decide

/-- C10, amended: when fill succeeds and channels is non-zero, the output
buffer is requested right after the fill, for 2048 samples per channel while
the session is not initialized and for frame_size samples per channel once it
is; if the request fails the call ends, otherwise decode is called next with
the capacity 2 * channels * samples (in int arithmetic, exact when the product
fits an int).  When channels is zero, the scratch buffer of 51200 bytes is
allocated right after the fill and no output buffer is requested before decode;
if the allocation fails the call ends, otherwise decode is called next with the
capacity 51200. -/
theorem aac_decode_frame_buffer_selection (ec : ErrorCodes) (avctx : AVCodecContext)
    (avpkt : AVPacket) (env : DecodeEnv)
    (hf : env.fill_err = AAC_DECODER_ERROR.AAC_DEC_OK) :
    (avctx.channels ≠ 0 →
      ∃ rest, (aac_decode_frame ec avctx avpkt env).trace =
        Event.aacDecoder_Fill avpkt.size (toUINT avpkt.size) AAC_DECODER_ERROR.AAC_DEC_OK
          env.fill_valid ::
        Event.get_buffer avctx.channels (if avctx.priv_data.initialized = 0 then 2048 else avctx.frame_size)
          (env.get_buffer avctx.channels (if avctx.priv_data.initialized = 0 then 2048 else avctx.frame_size)).1 :: rest ∧
        ((env.get_buffer avctx.channels (if avctx.priv_data.initialized = 0 then 2048 else avctx.frame_size)).1 < 0 → rest = []) ∧
        (¬ (env.get_buffer avctx.channels (if avctx.priv_data.initialized = 0 then 2048 else avctx.frame_size)).1 < 0 →
          ∃ e rest2, rest = Event.aacDecoder_DecodeFrame
            (wrapInt32 (2 * avctx.channels * (if avctx.priv_data.initialized = 0 then 2048 else avctx.frame_size))) e :: rest2)) ∧
    (avctx.channels = 0 →
      (env.av_malloc = none → (aac_decode_frame ec avctx avpkt env).trace =
        [Event.aacDecoder_Fill avpkt.size (toUINT avpkt.size) AAC_DECODER_ERROR.AAC_DEC_OK
          env.fill_valid, Event.av_malloc 51200 false]) ∧
      (∀ m, env.av_malloc = some m →
        ∃ e rest, (aac_decode_frame ec avctx avpkt env).trace =
          Event.aacDecoder_Fill avpkt.size (toUINT avpkt.size) AAC_DECODER_ERROR.AAC_DEC_OK
          env.fill_valid :: Event.av_malloc 51200 true ::
          Event.aacDecoder_DecodeFrame 51200 e :: rest)) ∧
    (-2147483648 ≤ 2 * avctx.channels * (if avctx.priv_data.initialized = 0 then 2048 else avctx.frame_size) →
      2 * avctx.channels * (if avctx.priv_data.initialized = 0 then 2048 else avctx.frame_size) < 2147483648 →
      wrapInt32 (2 * avctx.channels * (if avctx.priv_data.initialized = 0 then 2048 else avctx.frame_size)) = 2 * avctx.channels * (if avctx.priv_data.initialized = 0 then 2048 else avctx.frame_size)) := by
  refine ⟨?_, ?_, fun h1 h2 => wrapInt32_of_range _ h1 h2⟩
  · intro hc
    rcases frame_paths ec avctx avpkt env with
      h | h | h | h | h | h | h | h | h | h | h | h | h | h | h <;>
    obtain ⟨m, info, hcond, heq⟩ := h <;>
    rw [heq] <;>
    first
    | (exfalso; exact hcond hf)
    | (exfalso; exact hc hcond.2.1)
    | (have hg := hcond.2.2.1
       simp only [direct_nb_samples, direct_buf_size] at hg ⊢
       simp [hf, hg])
    | (have hg := hcond.2.2
       simp only [direct_nb_samples, direct_buf_size] at hg ⊢
       simp [hf, hg])
  · intro hc
    rcases frame_paths ec avctx avpkt env with
      h | h | h | h | h | h | h | h | h | h | h | h | h | h | h <;>
    obtain ⟨m, info, hcond, heq⟩ := h <;>
    rw [heq] <;>
    first
    | (exfalso; exact hcond hf)
    | (exfalso; exact hcond.2.1 hc)
    | (have hm := hcond.2.2.1
       simp [hf, hm])
    | (have hm := hcond.2.2
       simp [hf, hm])

/-- The amended C10 at a concrete call of an unresolved session with two
channels set. -/
theorem aac_decode_frame_buffer_selection_witness :
    ((ctx_fresh 2 0).channels ≠ 0 →
      ∃ rest, (aac_decode_frame posixErrorCodes (ctx_fresh 2 0) ⟨10⟩ env_no_info).trace =
        Event.aacDecoder_Fill (10 : Int) (toUINT (10 : Int)) AAC_DECODER_ERROR.AAC_DEC_OK
          env_no_info.fill_valid ::
        Event.get_buffer (ctx_fresh 2 0).channels (if (ctx_fresh 2 0).priv_data.initialized = 0 then 2048 else (ctx_fresh 2 0).frame_size)
          (env_no_info.get_buffer (ctx_fresh 2 0).channels (if (ctx_fresh 2 0).priv_data.initialized = 0 then 2048 else (ctx_fresh 2 0).frame_size)).1 :: rest ∧
        ((env_no_info.get_buffer (ctx_fresh 2 0).channels (if (ctx_fresh 2 0).priv_data.initialized = 0 then 2048 else (ctx_fresh 2 0).frame_size)).1 < 0 → rest = []) ∧
        (¬ (env_no_info.get_buffer (ctx_fresh 2 0).channels (if (ctx_fresh 2 0).priv_data.initialized = 0 then 2048 else (ctx_fresh 2 0).frame_size)).1 < 0 →
          ∃ e rest2, rest = Event.aacDecoder_DecodeFrame
            (wrapInt32 (2 * (ctx_fresh 2 0).channels * (if (ctx_fresh 2 0).priv_data.initialized = 0 then 2048 else (ctx_fresh 2 0).frame_size))) e :: rest2)) ∧
    ((ctx_fresh 2 0).channels = 0 →
      (env_no_info.av_malloc = none → (aac_decode_frame posixErrorCodes (ctx_fresh 2 0) ⟨10⟩ env_no_info).trace =
        [Event.aacDecoder_Fill (10 : Int) (toUINT (10 : Int)) AAC_DECODER_ERROR.AAC_DEC_OK
          env_no_info.fill_valid, Event.av_malloc 51200 false]) ∧
      (∀ m, env_no_info.av_malloc = some m →
        ∃ e rest, (aac_decode_frame posixErrorCodes (ctx_fresh 2 0) ⟨10⟩ env_no_info).trace =
          Event.aacDecoder_Fill (10 : Int) (toUINT (10 : Int)) AAC_DECODER_ERROR.AAC_DEC_OK
          env_no_info.fill_valid :: Event.av_malloc 51200 true ::
          Event.aacDecoder_DecodeFrame 51200 e :: rest)) ∧
    (-2147483648 ≤ 2 * (ctx_fresh 2 0).channels * (if (ctx_fresh 2 0).priv_data.initialized = 0 then 2048 else (ctx_fresh 2 0).frame_size) →
      2 * (ctx_fresh 2 0).channels * (if (ctx_fresh 2 0).priv_data.initialized = 0 then 2048 else (ctx_fresh 2 0).frame_size) < 2147483648 →
      wrapInt32 (2 * (ctx_fresh 2 0).channels * (if (ctx_fresh 2 0).priv_data.initialized = 0 then 2048 else (ctx_fresh 2 0).frame_size)) = 2 * (ctx_fresh 2 0).channels * (if (ctx_fresh 2 0).priv_data.initialized = 0 then 2048 else (ctx_fresh 2 0).frame_size)) :=
  aac_decode_frame_buffer_selection posixErrorCodes (ctx_fresh 2 0) ⟨10⟩
    env_no_info rfl

end FdkAacDec
